import Mathlib

/-!
# Life Replay — verification of the entry store, insight engine and narrative generator

A shallow embedding of the core modules of the Life Replay mood-journaling app:

* the entry store (`saveMoodEntry`, `getMoodEntries`, `getStories`, `clearAllData`),
* the aggregation / insight engine (`calculateStreaks`, `generatePatternInsights`,
  the dominant-mood computation of `calculateWeeklyInsights`), and
* the template-driven narrative generator (`fillTemplate`, `generateDayStory`).

Modelling conventions:

* Calendar dates (ISO `YYYY-MM-DD` strings in the source) are modelled as `Int`
  day numbers; the source's `getDateDaysAgo i` becomes `today - i`.
* Timestamps (epoch milliseconds) are `Int`.
* The JavaScript numbers used by the insight thresholds are modelled as `ℚ`.
* Asynchronous storage reads that may fail (`AsyncStorage.getItem` inside
  `try`/`catch`) are modelled by an explicit `Except` outcome parameter, and
  `JSON.parse` by an explicit fallible parse function parameter.
* `Math.random`-driven template selection is modelled by an explicit choice
  function `ρ` supplying the index picked for each pool.
-/

/-- The mood enumeration. The eight-member form (including `sad`) is the one
used by the insight engine's `moodCounts` record, in its key order. -/
inductive Mood where
  | happy
  | calm
  | tired
  | anxious
  | focused
  | neutral
  | excited
  | sad
deriving DecidableEq, Repr

/-- The three day segments. -/
inductive TimeOfDay where
  | morning
  | afternoon
  | evening
deriving DecidableEq, Repr

/-- The fixed activity catalog (ids of `ACTIVITIES`). -/
inductive ActivityId where
  | work
  | social
  | exercise
  | creative
  | rest
  | nature
  | learning
  | family
deriving DecidableEq, Repr

/-- A logged mood observation (interface `MoodEntry`). -/
structure MoodEntry where
  id : String
  date : Int
  timeOfDay : TimeOfDay
  mood : Mood
  emotionTag : Option String := none
  note : Option String := none
  activities : Option (List ActivityId) := none
  energyLevel : Option Nat := none
  timestamp : Int
deriving DecidableEq, Repr

/-- The input of `saveMoodEntry` (`Omit<MoodEntry, 'id' | 'timestamp'>`). -/
structure NewMoodEntry where
  date : Int
  timeOfDay : TimeOfDay
  mood : Mood
  emotionTag : Option String := none
  note : Option String := none
  activities : Option (List ActivityId) := none
  energyLevel : Option Nat := none
deriving DecidableEq, Repr

/-- The entry built by `saveMoodEntry`: the input plus a fresh id and the
current timestamp (`{ ...entry, id: generateId(), timestamp: Date.now() }`). -/
def mkEntry (e : NewMoodEntry) (newId : String) (now : Int) : MoodEntry :=
  { id := newId
    date := e.date
    timeOfDay := e.timeOfDay
    mood := e.mood
    emotionTag := e.emotionTag
    note := e.note
    activities := e.activities
    energyLevel := e.energyLevel
    timestamp := now }

/-- Whether a stored entry occupies the same `(date, timeOfDay)` slot as the
entry being saved (the predicate of the `filter` in `saveMoodEntry`). -/
def sameSlot (e : NewMoodEntry) (x : MoodEntry) : Bool :=
  x.date == e.date && x.timeOfDay == e.timeOfDay

/-- `saveMoodEntry`, as a transformation of the stored entry collection:
remove any existing entry for the same date and time, then push the new
entry. `newId` and `now` stand for `generateId()` and `Date.now()`. -/
def saveMoodEntry (entries : List MoodEntry) (e : NewMoodEntry)
    (newId : String) (now : Int) : List MoodEntry :=
  entries.filter (fun x => !(sameSlot e x)) ++ [mkEntry e newId now]

/-- The store invariant: at most one entry per `(date, timeOfDay)` pair. -/
def SlotUnique (l : List MoodEntry) : Prop :=
  l.Pairwise (fun a b => ¬(a.date = b.date ∧ a.timeOfDay = b.timeOfDay))

instance : DecidablePred SlotUnique := fun l =>
  List.instDecidablePairwise l

/-- `saveMoodEntry` removes every existing entry in the saved slot before
appending the new one, so filtering the result for that slot yields exactly
the new entry. -/
theorem filter_sameSlot_saveMoodEntry (entries : List MoodEntry) (e : NewMoodEntry)
    (newId : String) (now : Int) :
    (saveMoodEntry entries e newId now).filter (sameSlot e) = [mkEntry e newId now] := by
  unfold saveMoodEntry
  rw [List.filter_append]
  have h1 : (entries.filter (fun x => !(sameSlot e x))).filter (sameSlot e) = [] := by
    rw [List.filter_filter]
    apply List.filter_eq_nil_iff.mpr
    intro a _
    cases hs : sameSlot e a <;> simp [hs]
  have h2 : [mkEntry e newId now].filter (sameSlot e) = [mkEntry e newId now] := by
    simp [sameSlot, mkEntry]
  rw [h1, h2, List.nil_append]

/-- C1: on a store satisfying the one-entry-per-(date, timeOfDay) invariant,
`saveMoodEntry` preserves the invariant and leaves exactly one entry for the
pair `(entry.date, entry.timeOfDay)` — the newly built entry `mkEntry e newId
now`, which carries the input's content together with the freshly assigned id
and timestamp; in particular, after saving twice into the same slot, only the
second entry occupies it. -/
theorem C1_saveMoodEntry_replace (entries : List MoodEntry) (e : NewMoodEntry)
    (newId : String) (now : Int) (h : SlotUnique entries) :
    SlotUnique (saveMoodEntry entries e newId now) ∧
    (saveMoodEntry entries e newId now).filter (sameSlot e) = [mkEntry e newId now] ∧
    ∀ e' id' t', e'.date = e.date → e'.timeOfDay = e.timeOfDay →
      (saveMoodEntry (saveMoodEntry entries e' id' t') e newId now).filter (sameSlot e)
        = [mkEntry e newId now] := by
  refine ⟨?_, filter_sameSlot_saveMoodEntry entries e newId now,
    fun e' id' t' _ _ => filter_sameSlot_saveMoodEntry _ e newId now⟩
  unfold saveMoodEntry SlotUnique
  apply List.pairwise_append.mpr
  refine ⟨h.sublist (List.filter_sublist _), List.pairwise_singleton _ _, ?_⟩
  intro a ha b hb
  rcases List.mem_filter.mp ha with ⟨_, hkeep⟩
  rcases List.mem_singleton.mp hb with rfl
  simp only [sameSlot, mkEntry, Bool.not_eq_true', Bool.and_eq_false_iff] at hkeep ⊢
  intro hcon
  rcases hkeep with hk | hk
  · rw [hcon.1] at hk
    simp at hk
  · rw [hcon.2] at hk
    simp at hk

/-- Concrete instantiation of the C1 theorem: replacing an occupied
(date 0, morning) slot. -/
theorem C1_witness :
    SlotUnique (saveMoodEntry
      [{ id := "old", date := 0, timeOfDay := .morning, mood := .tired, timestamp := 1 }]
      { date := 0, timeOfDay := .morning, mood := .happy } "fresh" 7) ∧
    (saveMoodEntry
      [{ id := "old", date := 0, timeOfDay := .morning, mood := .tired, timestamp := 1 }]
      { date := 0, timeOfDay := .morning, mood := .happy } "fresh" 7).filter
        (sameSlot { date := 0, timeOfDay := .morning, mood := .happy })
      = [mkEntry { date := 0, timeOfDay := .morning, mood := .happy } "fresh" 7] :=
  ⟨(C1_saveMoodEntry_replace _ _ "fresh" 7 (by decide)).1,
   (C1_saveMoodEntry_replace _ _ "fresh" 7 (by decide)).2.1⟩

/-- The kind tag of a `StreakInfo`. -/
inductive StreakType where
  | logging
  | mood
deriving DecidableEq, Repr

/-- A streak summary (interface `StreakInfo`). -/
structure StreakInfo where
  type : StreakType
  count : Nat
  description : String
deriving DecidableEq, Repr

/-- Whether some entry is logged on calendar day `d`
(`uniqueDates.includes(checkDate)` in `calculateStreaks`). -/
def hasEntryOn (entries : List MoodEntry) (d : Int) : Bool :=
  entries.any (fun e => e.date == d)

/-- The logging-streak loop of `calculateStreaks`: `i` is the current
day offset, `acc` the accumulated count, `fuel` the remaining iterations
(the source iterates `i = 0 .. 29`). A day with no entry increments nothing
and breaks the loop unless `i = 0`. -/
def loggingLoop (present : Nat → Bool) : Nat → Nat → Nat → Nat
  | _, acc, 0 => acc
  | i, acc, fuel+1 =>
    if present i then loggingLoop present (i+1) (acc+1) fuel
    else if 0 < i then acc
    else loggingLoop present (i+1) acc fuel

/-- The logging streak over a store, walking back from `today`
(day offsets `0 .. 29`; `getDateDaysAgo i` is `today - i`). -/
def loggingStreak (entries : List MoodEntry) (today : Int) : Nat :=
  loggingLoop (fun i => hasEntryOn entries (today - i)) 0 0 30

/-- The "positive" mood set used by streak, trend and activity insights
(`['happy', 'calm', 'excited', 'focused']`). -/
def isPositiveMood (m : Mood) : Bool :=
  m == .happy || m == .calm || m == .excited || m == .focused

/-- The timestamp-descending precedence used by
`sort((a, b) => b.timestamp - a.timestamp)`: `a` may come before `b`
exactly when `b.timestamp ≤ a.timestamp`. -/
def tsDesc (a b : MoodEntry) : Prop := b.timestamp ≤ a.timestamp

instance : DecidableRel tsDesc := fun a b => Int.decLe _ _

/-- Entries sorted by timestamp descending
(`[...allEntries].sort((a, b) => b.timestamp - a.timestamp)`). JavaScript's
`sort` is stable, and a stable sort with respect to the total preorder
`tsDesc` has a unique result, so any stable sort models it; we use
insertion sort, which the kernel can evaluate. -/
def sortByTimestampDesc (entries : List MoodEntry) : List MoodEntry :=
  entries.insertionSort tsDesc

/-- The mood-streak loop of `calculateStreaks`: count the leading entries with
a positive mood, breaking at the first non-positive one. -/
def positiveStreakCount : List MoodEntry → Nat
  | [] => 0
  | e :: rest => if isPositiveMood e.mood then 1 + positiveStreakCount rest else 0

/-- The positive-mood streak over all entries. -/
def positiveStreak (entries : List MoodEntry) : Nat :=
  positiveStreakCount (sortByTimestampDesc entries)

/-- Description text of a logging streak. -/
def loggingDescription (n : Nat) : String :=
  toString n ++ " day" ++ (if 1 < n then "s" else "") ++ " logging streak! 🔥"

/-- Description text of a positive-mood streak. -/
def moodDescription (n : Nat) : String :=
  toString n ++ " positive entries in a row! ✨"

/-- `calculateStreaks`: the logging streak is reported when it reaches 2,
the positive-mood streak when it reaches 3. -/
def calculateStreaks (entries : List MoodEntry) (today : Int) : List StreakInfo :=
  (if 2 ≤ loggingStreak entries today then
    [⟨.logging, loggingStreak entries today,
      loggingDescription (loggingStreak entries today)⟩]
   else []) ++
  (if 3 ≤ positiveStreak entries then
    [⟨.mood, positiveStreak entries, moodDescription (positiveStreak entries)⟩]
   else [])

/-- The claim's reading of the backward walk: the length of the run of
consecutive present days starting at offset `i`, within `fuel` more days. -/
def consecutiveRun (present : Nat → Bool) : Nat → Nat → Nat
  | _, 0 => 0
  | i, fuel+1 => if present i then 1 + consecutiveRun present (i+1) fuel else 0

/-- Away from day 0, the source's loop counts exactly the consecutive
present-day run. -/
theorem loggingLoop_eq_consecutiveRun (present : Nat → Bool) :
    ∀ fuel i acc, 1 ≤ i →
      loggingLoop present i acc fuel = acc + consecutiveRun present i fuel := by
  intro fuel
  induction fuel with
  | zero =>
    intro i acc _
    simp [loggingLoop, consecutiveRun]
  | succ n ih =>
    intro i acc hi
    by_cases hp : present i
    · rw [show loggingLoop present i acc (n+1)
          = loggingLoop present (i+1) (acc+1) n by simp [loggingLoop, hp],
        show consecutiveRun present i (n+1)
          = 1 + consecutiveRun present (i+1) n by simp [consecutiveRun, hp],
        ih (i+1) (acc+1) (by omega)]
      omega
    · rw [show loggingLoop present i acc (n+1) = acc by
          simp [loggingLoop, hp]; omega,
        show consecutiveRun present i (n+1) = 0 by simp [consecutiveRun, hp]]
      omega

/-- Unrolling the first (day-0) iteration of the logging-streak loop: a
missing day 0 contributes nothing but does not break the walk. -/
theorem loggingLoop_zero_step (present : Nat → Bool) (fuel : Nat) :
    loggingLoop present 0 0 (fuel+1) =
      (if present 0 then 1 else 0) + consecutiveRun present 1 fuel := by
  by_cases hp : present 0
  · rw [show loggingLoop present 0 0 (fuel+1) = loggingLoop present 1 1 fuel by
        simp [loggingLoop, hp]]
    rw [loggingLoop_eq_consecutiveRun present fuel 1 1 (by omega)]
    simp [hp]
  · rw [show loggingLoop present 0 0 (fuel+1) = loggingLoop present 1 0 fuel by
        simp [loggingLoop, hp]]
    rw [loggingLoop_eq_consecutiveRun present fuel 1 0 (by omega)]
    simp [hp]

/-- C2: the logging streak counts consecutive days with at least one entry,
walking back from today over a 30-day window; a missing day 0 contributes
nothing but only gaps strictly before today stop the scan, and a logging
`StreakInfo` is reported exactly when the count reaches 2. Entries on days
0, −1, −2 with a gap at −3 give 3; entries only on −1 and −2 give 2. -/
theorem C2_logging_streak (entries : List MoodEntry) (today : Int) :
    loggingStreak entries today =
      (if hasEntryOn entries today then 1 else 0) +
        consecutiveRun (fun i => hasEntryOn entries (today - i)) 1 29 ∧
    ((∃ s ∈ calculateStreaks entries today, s.type = .logging) ↔
      2 ≤ loggingStreak entries today) ∧
    loggingStreak
      [⟨"a", 0, .morning, .happy, none, none, none, none, 30⟩,
       ⟨"b", -1, .morning, .happy, none, none, none, none, 20⟩,
       ⟨"c", -2, .morning, .happy, none, none, none, none, 10⟩] 0 = 3 ∧
    loggingStreak
      [⟨"b", -1, .morning, .happy, none, none, none, none, 20⟩,
       ⟨"c", -2, .morning, .happy, none, none, none, none, 10⟩] 0 = 2 := by
  refine ⟨?_, ?_, by decide, by decide⟩
  · unfold loggingStreak
    rw [show (30:Nat) = 29+1 from rfl, loggingLoop_zero_step]
    simp
  · unfold calculateStreaks
    by_cases hl : 2 ≤ loggingStreak entries today <;>
      by_cases hm : 3 ≤ positiveStreak entries <;>
        simp [hl, hm]

/-- The break-at-first-negative loop of the mood streak is the length of the
leading all-positive run. -/
theorem positiveStreakCount_eq_takeWhile (l : List MoodEntry) :
    positiveStreakCount l = (l.takeWhile (fun e => isPositiveMood e.mood)).length := by
  induction l with
  | nil => rfl
  | cons e rest ih =>
    by_cases hp : isPositiveMood e.mood <;>
      simp [positiveStreakCount, List.takeWhile_cons, hp, ih] <;> omega

/-- C3: the mood streak is the length of the leading run of positive-mood
entries in timestamp-descending order, stopping at the first non-positive
entry, and a mood `StreakInfo` is reported exactly when it reaches 3. The
descending mood sequence [happy, excited, tired, calm] yields 2, not 3. -/
theorem C3_mood_streak (entries : List MoodEntry) (today : Int) :
    positiveStreak entries =
      ((sortByTimestampDesc entries).takeWhile (fun e => isPositiveMood e.mood)).length ∧
    ((∃ s ∈ calculateStreaks entries today, s.type = .mood) ↔
      3 ≤ positiveStreak entries) ∧
    (sortByTimestampDesc
      [⟨"d", 0, .morning, .calm, none, none, none, none, 10⟩,
       ⟨"a", 0, .morning, .happy, none, none, none, none, 40⟩,
       ⟨"b", 0, .morning, .excited, none, none, none, none, 30⟩,
       ⟨"c", 0, .morning, .tired, none, none, none, none, 20⟩]).map (fun e => e.mood)
      = [.happy, .excited, .tired, .calm] ∧
    positiveStreak
      [⟨"d", 0, .morning, .calm, none, none, none, none, 10⟩,
       ⟨"a", 0, .morning, .happy, none, none, none, none, 40⟩,
       ⟨"b", 0, .morning, .excited, none, none, none, none, 30⟩,
       ⟨"c", 0, .morning, .tired, none, none, none, none, 20⟩] = 2 := by
  refine ⟨positiveStreakCount_eq_takeWhile _, ?_, by decide, by decide⟩
  unfold calculateStreaks
  by_cases hl : 2 ≤ loggingStreak entries today <;>
    by_cases hm : 3 ≤ positiveStreak entries <;>
      simp [hl, hm]

/-- The fixed mood enumeration order of the `moodCounts` record
(`Object.keys(moodCounts)` iteration order). -/
def moodEnum : List Mood :=
  [.happy, .calm, .tired, .anxious, .focused, .neutral, .excited, .sad]

/-- Per-mood occurrence count over a collection
(the `moodCounts` tally of `calculateWeeklyInsights`). -/
def moodCounts (entries : List MoodEntry) (m : Mood) : Nat :=
  (entries.filter (fun e => e.mood == m)).length

/-- The dominant-mood fold of `calculateWeeklyInsights`: the accumulator is
`(dominantMood, maxCount)` and a mood takes over only on a strictly higher
count. -/
def dominantLoop (f : Mood → Nat) : List Mood → Mood × Nat → Mood × Nat
  | [], p => p
  | m :: rest, p => dominantLoop f rest (if p.2 < f m then (m, f m) else p)

/-- The dominant mood, starting from `('neutral', 0)`. -/
def dominantMood (f : Mood → Nat) : Mood :=
  (dominantLoop f moodEnum (.neutral, 0)).1

/-- Every mood occurs in the fixed enumeration. -/
theorem mem_moodEnum (m : Mood) : m ∈ moodEnum := by
  cases m <;> simp [moodEnum]

/-- Characterisation of the dominant-mood fold: either no count beats the
accumulator and it is returned unchanged, or the result is the first mood in
the list that attains the running maximum — every earlier mood counts
strictly below it and every later mood at most equals it. -/
theorem dominantLoop_spec (f : Mood → Nat) :
    ∀ (l : List Mood) (b : Mood) (c : Nat),
      (dominantLoop f l (b, c) = (b, c) ∧ ∀ m ∈ l, f m ≤ c) ∨
      (∃ l₁ m l₂, l = l₁ ++ m :: l₂ ∧ dominantLoop f l (b, c) = (m, f m) ∧
        c < f m ∧ (∀ x ∈ l₁, f x < f m) ∧ (∀ x ∈ l₂, f x ≤ f m)) := by
  intro l
  induction l with
  | nil =>
    intro b c
    left
    exact ⟨rfl, by simp⟩
  | cons m rest ih =>
    intro b c
    simp only [dominantLoop]
    by_cases h : c < f m
    · rw [if_pos h]
      rcases ih m (f m) with ⟨heq, hall⟩ | ⟨l₁, m', l₂, hdec, heq, hlt, hbefore, hafter⟩
      · right
        exact ⟨[], m, rest, by simp, heq, h, by simp, hall⟩
      · right
        refine ⟨m :: l₁, m', l₂, by simp [hdec], heq, by omega, ?_, hafter⟩
        intro x hx
        rcases List.mem_cons.mp hx with rfl | hx
        · omega
        · exact hbefore x hx
    · rw [if_neg h]
      rcases ih b c with ⟨heq, hall⟩ | ⟨l₁, m', l₂, hdec, heq, hlt, hbefore, hafter⟩
      · left
        refine ⟨heq, ?_⟩
        intro x hx
        rcases List.mem_cons.mp hx with rfl | hx
        · omega
        · exact hall x hx
      · right
        refine ⟨m :: l₁, m', l₂, by simp [hdec], heq, hlt, ?_, hafter⟩
        intro x hx
        rcases List.mem_cons.mp hx with rfl | hx
        · omega
        · exact hbefore x hx

/-- C4: the dominant mood attains the maximal count; it is `neutral` when
every count is zero; otherwise it is the first mood in the fixed 8-mood
enumeration attaining the maximum (every mood listed before it counts
strictly less), and a week counting {happy: 2, calm: 2, others: 0} resolves
to `happy`. -/
theorem C4_dominant_mood (entries : List MoodEntry) :
    (∀ m : Mood,
      moodCounts entries m ≤ moodCounts entries (dominantMood (moodCounts entries))) ∧
    ((∀ m : Mood, moodCounts entries m = 0) →
      dominantMood (moodCounts entries) = .neutral) ∧
    ((∃ m : Mood, 0 < moodCounts entries m) →
      ∃ l₁ l₂, moodEnum = l₁ ++ dominantMood (moodCounts entries) :: l₂ ∧
        ∀ x ∈ l₁,
          moodCounts entries x
            < moodCounts entries (dominantMood (moodCounts entries))) ∧
    dominantMood (moodCounts
      [⟨"a", 0, .morning, .happy, none, none, none, none, 1⟩,
       ⟨"b", 0, .afternoon, .happy, none, none, none, none, 2⟩,
       ⟨"c", 1, .morning, .calm, none, none, none, none, 3⟩,
       ⟨"d", 1, .afternoon, .calm, none, none, none, none, 4⟩]) = .happy := by
  set f := moodCounts entries with hf
  rcases dominantLoop_spec f moodEnum .neutral 0 with
    ⟨heq, hall⟩ | ⟨l₁, m', l₂, hdec, heq, hlt, hbefore, hafter⟩
  · have hd : dominantMood f = Mood.neutral := by
      unfold dominantMood
      rw [heq]
    have hzero : ∀ m : Mood, f m = 0 := fun m =>
      Nat.le_zero.mp (hall m (mem_moodEnum m))
    refine ⟨?_, fun _ => hd, ?_, by decide⟩
    · intro m
      rw [hd, hzero m, hzero Mood.neutral]
    · rintro ⟨m, hm⟩
      rw [hzero m] at hm
      omega
  · have hd : dominantMood f = m' := by
      unfold dominantMood
      rw [heq]
    refine ⟨?_, ?_, fun _ => ⟨l₁, l₂, by rw [hd]; exact hdec, by rw [hd]; exact hbefore⟩,
      by decide⟩
    · intro m
      have hmem := mem_moodEnum m
      rw [hdec] at hmem
      rw [hd]
      rcases List.mem_append.mp hmem with h1 | h2
      · exact le_of_lt (hbefore m h1)
      · rcases List.mem_cons.mp h2 with rfl | h3
        · exact le_refl _
        · exact hafter m h3
    · intro hzero
      rw [hzero m'] at hlt
      omega

/-- A persisted day narrative (interface `DayStory`): per-slot prose, a
summary, and the snapshot fields. -/
structure DayStory where
  date : Int
  morning : String
  afternoon : String
  evening : String
  summary : String
  morningMood : Option Mood := none
  afternoonMood : Option Mood := none
  eveningMood : Option Mood := none
  activities : Option (List ActivityId) := none
  averageEnergy : Option ℚ := none
  notes : Option (List String) := none
deriving DecidableEq, Repr

/-- The four persisted record keys (`STORAGE_KEYS`, in `Object.values`
order): mood entries, stories, and the reserved settings and custom-moods
spaces. -/
def STORAGE_KEYS : List String :=
  ["life_replay_mood_entries", "life_replay_stories",
   "life_replay_settings", "life_replay_custom_moods"]

/-- `getMoodEntries`: read the mood-entries record and parse it. `read` is
the outcome of `AsyncStorage.getItem(STORAGE_KEYS.MOOD_ENTRIES)` (an
exception, a missing record, or stored text) and `parse` the outcome of
`JSON.parse`; a read error or a parse error lands in the `catch` branch and
returns `[]`, a missing (or empty, hence falsy) record returns the `[]`
default of `data ? JSON.parse(data) : []`. -/
def getMoodEntries (read : Except String (Option String))
    (parse : String → Except String (List MoodEntry)) : List MoodEntry :=
  match read with
  | .error _ => []
  | .ok none => []
  | .ok (some s) =>
    if s = "" then []
    else
      match parse s with
      | .error _ => []
      | .ok l => l

/-- `getStories`: identical read/recovery shape over the stories record. -/
def getStories (read : Except String (Option String))
    (parse : String → Except String (List DayStory)) : List DayStory :=
  match read with
  | .error _ => []
  | .ok none => []
  | .ok (some s) =>
    if s = "" then []
    else
      match parse s with
      | .error _ => []
      | .ok l => l

/-- C9: `getMoodEntries` and `getStories` are total — every storage-read
outcome produces a list, never a propagated exception — and any read
failure, missing record, or parse failure yields the empty list, while a
successful read of well-formed data yields exactly the parsed entries. -/
theorem C9_read_failures_swallowed
    (readE : Except String (Option String))
    (parseE : String → Except String (List MoodEntry))
    (readS : Except String (Option String))
    (parseS : String → Except String (List DayStory)) :
    (∀ err, readE = .error err → getMoodEntries readE parseE = []) ∧
    (readE = .ok none → getMoodEntries readE parseE = []) ∧
    (∀ s err, readE = .ok (some s) → parseE s = .error err →
      getMoodEntries readE parseE = []) ∧
    (∀ s l, readE = .ok (some s) → s ≠ "" → parseE s = .ok l →
      getMoodEntries readE parseE = l) ∧
    (∀ err, readS = .error err → getStories readS parseS = []) ∧
    (readS = .ok none → getStories readS parseS = []) ∧
    (∀ s err, readS = .ok (some s) → parseS s = .error err →
      getStories readS parseS = []) ∧
    (∀ s l, readS = .ok (some s) → s ≠ "" → parseS s = .ok l →
      getStories readS parseS = l) := by
  refine ⟨?_, ?_, ?_, ?_, ?_, ?_, ?_, ?_⟩
  · rintro err rfl
    rfl
  · rintro rfl
    rfl
  · rintro s err rfl hp
    by_cases hs : s = "" <;> simp [getMoodEntries, hs, hp]
  · rintro s l rfl hs hp
    simp [getMoodEntries, hs, hp]
  · rintro err rfl
    rfl
  · rintro rfl
    rfl
  · rintro s err rfl hp
    by_cases hs : s = "" <;> simp [getStories, hs, hp]
  · rintro s l rfl hs hp
    simp [getStories, hs, hp]

/-- Concrete instantiation of the C9 theorem: a failed read and a malformed
record both recover to the empty list. -/
theorem C9_witness :
    getMoodEntries (.error "storage unavailable") (fun _ => .error "unused") = [] ∧
    getStories (.ok (some "not json")) (fun _ => .error "SyntaxError") = [] :=
  ⟨(C9_read_failures_swallowed (.error "storage unavailable") (fun _ => .error "unused")
      (.ok none) (fun _ => .error "unused")).1 "storage unavailable" rfl,
   (C9_read_failures_swallowed (.ok none) (fun _ => .error "unused")
      (.ok (some "not json")) (fun _ => .error "SyntaxError")).2.2.2.2.2.2.1
      "not json" "SyntaxError" rfl rfl⟩

/-- `AsyncStorage.multiRemove`: delete every listed key from the store
snapshot. -/
def multiRemove (store : String → Option String) (keys : List String) :
    String → Option String :=
  fun k => if k ∈ keys then none else store k

/-- `clearAllData`: remove all of `Object.values(STORAGE_KEYS)`. -/
def clearAllData (store : String → Option String) : String → Option String :=
  multiRemove store STORAGE_KEYS

/-- C10: `clearAllData` erases all four persisted record spaces — mood
entries, stories, and the reserved settings and custom-moods records —
and leaves every other key untouched; after it, the mood-entry and story
reads both return the empty list. -/
theorem C10_clearAllData
    (store : String → Option String)
    (parseE : String → Except String (List MoodEntry))
    (parseS : String → Except String (List DayStory)) :
    STORAGE_KEYS.length = 4 ∧
    clearAllData store "life_replay_mood_entries" = none ∧
    clearAllData store "life_replay_stories" = none ∧
    clearAllData store "life_replay_settings" = none ∧
    clearAllData store "life_replay_custom_moods" = none ∧
    (∀ k, k ∉ STORAGE_KEYS → clearAllData store k = store k) ∧
    getMoodEntries (.ok (clearAllData store "life_replay_mood_entries")) parseE = [] ∧
    getStories (.ok (clearAllData store "life_replay_stories")) parseS = [] := by
  refine ⟨rfl, ?_, ?_, ?_, ?_, ?_, ?_, ?_⟩ <;>
    simp [clearAllData, multiRemove, STORAGE_KEYS, getMoodEntries, getStories] <;>
    tauto

/-- The kind tag of a `PatternInsight`. -/
inductive PatternType where
  | time
  | activity
  | energy
  | streak
  | trend
deriving DecidableEq, Repr

/-- A typed pattern detection (interface `PatternInsight`). -/
structure PatternInsight where
  type : PatternType
  title : String
  description : String
  icon : String
deriving DecidableEq, Repr

/-- Milliseconds in seven days (`7 * 24 * 60 * 60 * 1000`). -/
def weekMs : Int := 7 * 24 * 60 * 60 * 1000

/-- The high-energy pattern record. -/
def highEnergyInsight : PatternInsight :=
  ⟨.energy, "High Energy Week",
   "Your energy levels have been above average this week!", "⚡"⟩

/-- The low-energy pattern record. -/
def lowEnergyInsight : PatternInsight :=
  ⟨.energy, "Low Energy Pattern",
   "You might need more rest. Consider taking breaks.", "🔋"⟩

/-- The morning-person pattern record. -/
def morningPersonInsight : PatternInsight :=
  ⟨.time, "Morning Person", "You tend to feel best in the mornings!", "🌅"⟩

/-- The night-owl pattern record. -/
def nightOwlInsight : PatternInsight :=
  ⟨.time, "Night Owl", "Your mood improves as the day goes on.", "🌙"⟩

/-- The upward-trend pattern record. -/
def upwardTrendInsight : PatternInsight :=
  ⟨.trend, "Upward Trend",
   "Your mood has been improving compared to last week!", "📈"⟩

/-- The challenging-week pattern record. -/
def challengingWeekInsight : PatternInsight :=
  ⟨.trend, "Challenging Week",
   "This week has been tougher. Be gentle with yourself.", "💙"⟩

/-- The consecutive-fatigue pattern record (tiered description). -/
def restNeededInsight (maxConsecutiveTired : Nat) : PatternInsight :=
  ⟨.streak, "Rest Needed",
   "You\x27ve been " ++ (if 4 ≤ maxConsecutiveTired then "really " else "")
     ++ "tired or anxious for a while. Prioritize self-care.", "🫂"⟩

/-- The energy block of `generatePatternInsights`: with at least 3
energy-bearing entries this week, an average ≥ 4 or ≤ 2 emits a pattern. -/
def energyPatterns (weekEntries : List MoodEntry) : List PatternInsight :=
  let entriesWithEnergy := weekEntries.filter (fun e => e.energyLevel.isSome)
  if 3 ≤ entriesWithEnergy.length then
    let avgEnergy : ℚ :=
      (entriesWithEnergy.foldl (fun sum e => sum + (e.energyLevel.getD 0 : ℚ)) 0)
        / entriesWithEnergy.length
    if 4 ≤ avgEnergy then [highEnergyInsight]
    else if avgEnergy ≤ 2 then [lowEnergyInsight]
    else []
  else []

/-- The slot-specific positive set for mornings
(`['happy', 'excited', 'focused']`). -/
def morningPositiveSet (m : Mood) : Bool :=
  m == .happy || m == .excited || m == .focused

/-- The slot-specific positive set for evenings
(`['happy', 'calm', 'excited']`). -/
def eveningPositiveSet (m : Mood) : Bool :=
  m == .happy || m == .calm || m == .excited

/-- The moods of the week's morning entries. -/
def morningMoods (weekEntries : List MoodEntry) : List Mood :=
  (weekEntries.filter (fun e => e.timeOfDay == .morning)).map (fun e => e.mood)

/-- The moods of the week's evening entries. -/
def eveningMoods (weekEntries : List MoodEntry) : List Mood :=
  (weekEntries.filter (fun e => e.timeOfDay == .evening)).map (fun e => e.mood)

/-- The Morning Person branch condition
(`morningMoods.length >= 3 && morningPositive > morningMoods.length * 0.7`). -/
def morningPersonCond (weekEntries : List MoodEntry) : Prop :=
  3 ≤ (morningMoods weekEntries).length ∧
    ((morningMoods weekEntries).length : ℚ) * 0.7
      < (((morningMoods weekEntries).filter morningPositiveSet).length : ℚ)

/-- The Night Owl branch condition
(`eveningMoods.length >= 3 && eveningPositive > eveningMoods.length * 0.7`). -/
def nightOwlCond (weekEntries : List MoodEntry) : Prop :=
  3 ≤ (eveningMoods weekEntries).length ∧
    ((eveningMoods weekEntries).length : ℚ) * 0.7
      < (((eveningMoods weekEntries).filter eveningPositiveSet).length : ℚ)

instance (w : List MoodEntry) : Decidable (morningPersonCond w) := by
  unfold morningPersonCond
  infer_instance

instance (w : List MoodEntry) : Decidable (nightOwlCond w) := by
  unfold nightOwlCond
  infer_instance

/-- The time-of-day block of `generatePatternInsights`: `else if` makes the
morning check win over the evening one. -/
def timePatterns (weekEntries : List MoodEntry) : List PatternInsight :=
  if morningPersonCond weekEntries then [morningPersonInsight]
  else if nightOwlCond weekEntries then [nightOwlInsight]
  else []

/-- The prior-week window of the trend block: timestamps in
`[now − 14 days, now − 7 days)`. -/
def lastWeekEntries (allEntries : List MoodEntry) (now : Int) : List MoodEntry :=
  allEntries.filter (fun e => now - 2 * weekMs ≤ e.timestamp ∧ e.timestamp < now - weekMs)

/-- The fraction of positive-mood entries in a window. -/
def positiveFraction (entries : List MoodEntry) : ℚ :=
  ((entries.filter (fun e => isPositiveMood e.mood)).length : ℚ) / entries.length

/-- The trend block of `generatePatternInsights`: both windows need ≥ 3
entries; a positive-fraction delta beyond ±0.2 emits a pattern. -/
def trendPatterns (weekEntries allEntries : List MoodEntry) (now : Int) :
    List PatternInsight :=
  if 3 ≤ weekEntries.length ∧ 3 ≤ (lastWeekEntries allEntries now).length then
    let thisWeekPositive := positiveFraction weekEntries
    let lastWeekPositive := positiveFraction (lastWeekEntries allEntries now)
    if lastWeekPositive + 0.2 < thisWeekPositive then [upwardTrendInsight]
    else if thisWeekPositive < lastWeekPositive - 0.2 then [challengingWeekInsight]
    else []
  else []

/-- The timestamp-ascending precedence used by
`sort((a, b) => a.timestamp - b.timestamp)`. -/
def tsAsc (a b : MoodEntry) : Prop := a.timestamp ≤ b.timestamp

instance : DecidableRel tsAsc := fun a b => Int.decLe _ _

/-- Entries sorted by timestamp ascending (stable, like JavaScript `sort`). -/
def sortByTimestampAsc (entries : List MoodEntry) : List MoodEntry :=
  entries.insertionSort tsAsc

/-- The running-maximum loop over consecutive tired/anxious entries. -/
def fatigueLoop : List MoodEntry → Nat → Nat → Nat
  | [], _, best => best
  | e :: rest, cur, best =>
    if e.mood == .tired || e.mood == .anxious then
      fatigueLoop rest (cur + 1) (max best (cur + 1))
    else
      fatigueLoop rest 0 best

/-- The consecutive-fatigue block of `generatePatternInsights`. -/
def fatiguePatterns (weekEntries : List MoodEntry) : List PatternInsight :=
  let maxConsecutiveTired := fatigueLoop (sortByTimestampAsc weekEntries) 0 0
  if 3 ≤ maxConsecutiveTired then [restNeededInsight maxConsecutiveTired] else []

/-- `generatePatternInsights`: the four detector blocks in their fixed
order, truncated to the first 4 patterns. -/
def generatePatternInsights (weekEntries allEntries : List MoodEntry) (now : Int) :
    List PatternInsight :=
  (energyPatterns weekEntries ++ timePatterns weekEntries ++
    trendPatterns weekEntries allEntries now ++ fatiguePatterns weekEntries).take 4

/-- The energy block emits at most one pattern. -/
theorem energyPatterns_length (w : List MoodEntry) : (energyPatterns w).length ≤ 1 := by
  unfold energyPatterns
  dsimp only
  split_ifs <;> simp

/-- The time-of-day block emits at most one pattern. -/
theorem timePatterns_length (w : List MoodEntry) : (timePatterns w).length ≤ 1 := by
  unfold timePatterns
  split_ifs <;> simp

/-- The trend block emits at most one pattern. -/
theorem trendPatterns_length (w a : List MoodEntry) (now : Int) :
    (trendPatterns w a now).length ≤ 1 := by
  unfold trendPatterns
  dsimp only
  split_ifs <;> simp

/-- The fatigue block emits at most one pattern. -/
theorem fatiguePatterns_length (w : List MoodEntry) : (fatiguePatterns w).length ≤ 1 := by
  unfold fatiguePatterns
  dsimp only
  split_ifs <;> simp

/-- Since each of the four blocks emits at most one pattern, the `slice(0,4)`
truncation never removes anything, and membership in the weekly pattern list
is membership in one of the blocks. -/
theorem mem_generatePatternInsights (p : PatternInsight) (w a : List MoodEntry)
    (now : Int) :
    p ∈ generatePatternInsights w a now ↔
      p ∈ energyPatterns w ∨ p ∈ timePatterns w ∨
        p ∈ trendPatterns w a now ∨ p ∈ fatiguePatterns w := by
  unfold generatePatternInsights
  rw [List.take_of_length_le]
  · simp [List.mem_append, or_assoc]
  · have h1 := energyPatterns_length w
    have h2 := timePatterns_length w
    have h3 := trendPatterns_length w a now
    have h4 := fatiguePatterns_length w
    simp only [List.length_append]
    omega

/-- Every pattern of the energy block is energy-typed. -/
theorem mem_energyPatterns_type {p : PatternInsight} {w : List MoodEntry}
    (h : p ∈ energyPatterns w) : p.type = .energy := by
  unfold energyPatterns at h
  dsimp only at h
  split_ifs at h <;> simp at h <;> subst h <;> rfl

/-- Every pattern of the time-of-day block is time-typed. -/
theorem mem_timePatterns_type {p : PatternInsight} {w : List MoodEntry}
    (h : p ∈ timePatterns w) : p.type = .time := by
  unfold timePatterns at h
  split_ifs at h <;> simp at h <;> subst h <;> rfl

/-- Every pattern of the trend block is trend-typed. -/
theorem mem_trendPatterns_type {p : PatternInsight} {w a : List MoodEntry} {now : Int}
    (h : p ∈ trendPatterns w a now) : p.type = .trend := by
  unfold trendPatterns at h
  dsimp only at h
  split_ifs at h <;> simp at h <;> subst h <;> rfl

/-- Every pattern of the fatigue block is streak-typed. -/
theorem mem_fatiguePatterns_type {p : PatternInsight} {w : List MoodEntry}
    (h : p ∈ fatiguePatterns w) : p.type = .streak := by
  unfold fatiguePatterns at h
  dsimp only at h
  split_ifs at h <;> simp at h <;> subst h <;> rfl

/-- A trend-typed pattern is in the weekly report exactly when it is in the
trend block: the other blocks only emit energy-, time- or streak-typed
patterns. -/
theorem trend_mem_iff (weekEntries allEntries : List MoodEntry) (now : Int)
    (p : PatternInsight) (hp : p.type = PatternType.trend) :
    p ∈ generatePatternInsights weekEntries allEntries now ↔
      p ∈ trendPatterns weekEntries allEntries now := by
  rw [mem_generatePatternInsights]
  constructor
  · rintro (h | h | h | h)
    · rw [mem_energyPatterns_type h] at hp
      exact absurd hp (by decide)
    · rw [mem_timePatterns_type h] at hp
      exact absurd hp (by decide)
    · exact h
    · rw [mem_fatiguePatterns_type h] at hp
      exact absurd hp (by decide)
  · intro h
    exact Or.inr (Or.inr (Or.inl h))

/-- C7: the weekly report carries an Upward Trend pattern exactly when both
the current week window and the prior `[now−14d, now−7d)` window hold at
least 3 entries and this week's positive-mood fraction exceeds last week's
by more than 0.2; a Challenging Week pattern exactly when it falls short by
more than 0.2; and some trend pattern exactly when the fractions differ by
more than 0.2 with both windows eligible. -/
theorem C7_trend_pattern (weekEntries allEntries : List MoodEntry) (now : Int) :
    (upwardTrendInsight ∈ generatePatternInsights weekEntries allEntries now ↔
      (3 ≤ weekEntries.length ∧ 3 ≤ (lastWeekEntries allEntries now).length) ∧
        positiveFraction (lastWeekEntries allEntries now) + 0.2
          < positiveFraction weekEntries) ∧
    (challengingWeekInsight ∈ generatePatternInsights weekEntries allEntries now ↔
      (3 ≤ weekEntries.length ∧ 3 ≤ (lastWeekEntries allEntries now).length) ∧
        positiveFraction weekEntries
          < positiveFraction (lastWeekEntries allEntries now) - 0.2) ∧
    ((∃ p ∈ generatePatternInsights weekEntries allEntries now,
        p.type = PatternType.trend) ↔
      (3 ≤ weekEntries.length ∧ 3 ≤ (lastWeekEntries allEntries now).length) ∧
        (positiveFraction (lastWeekEntries allEntries now) + 0.2
            < positiveFraction weekEntries ∨
          positiveFraction weekEntries
            < positiveFraction (lastWeekEntries allEntries now) - 0.2)) := by
  refine ⟨?_, ?_, ?_⟩
  · rw [trend_mem_iff weekEntries allEntries now upwardTrendInsight rfl]
    unfold trendPatterns
    dsimp only
    split_ifs with h1 h2 h3 <;>
      simp [upwardTrendInsight, challengingWeekInsight, *]
  · rw [trend_mem_iff weekEntries allEntries now challengingWeekInsight rfl]
    unfold trendPatterns
    dsimp only
    split_ifs with h1 h2 h3 <;>
      simp [upwardTrendInsight, challengingWeekInsight, *] <;>
      linarith
  · constructor
    · rintro ⟨p, hmem, hty⟩
      rw [trend_mem_iff weekEntries allEntries now p hty] at hmem
      unfold trendPatterns at hmem
      dsimp only at hmem
      split_ifs at hmem with h1 h2 h3
      · exact ⟨h1, Or.inl h2⟩
      · exact ⟨h1, Or.inr h3⟩
      · simp at hmem
      · simp at hmem
    · rintro ⟨h1, h2 | h3⟩
      · refine ⟨upwardTrendInsight, ?_, rfl⟩
        rw [trend_mem_iff weekEntries allEntries now upwardTrendInsight rfl]
        unfold trendPatterns
        dsimp only
        rw [if_pos h1, if_pos h2]
        simp
      · refine ⟨challengingWeekInsight, ?_, rfl⟩
        rw [trend_mem_iff weekEntries allEntries now challengingWeekInsight rfl]
        unfold trendPatterns
        dsimp only
        have hn2 : ¬(positiveFraction (lastWeekEntries allEntries now) + 0.2
            < positiveFraction weekEntries) := by
          intro hcon
          have h02 : (0.2 : ℚ) = 1/5 := by norm_num
          rw [h02] at h3 hcon
          linarith
        rw [if_pos h1, if_neg hn2, if_pos h3]
        simp

/-- The weekly pattern list is exactly the concatenation of the four blocks
(the `slice(0,4)` cap never bites, since each block emits at most one). -/
theorem generatePatternInsights_eq (w a : List MoodEntry) (now : Int) :
    generatePatternInsights w a now =
      energyPatterns w ++ timePatterns w ++ trendPatterns w a now ++
        fatiguePatterns w := by
  unfold generatePatternInsights
  apply List.take_of_length_le
  have h1 := energyPatterns_length w
  have h2 := timePatterns_length w
  have h3 := trendPatterns_length w a now
  have h4 := fatiguePatterns_length w
  simp only [List.length_append]
  omega

/-- A time-typed pattern is in the weekly report exactly when it is in the
time-of-day block. -/
theorem time_mem_iff (weekEntries allEntries : List MoodEntry) (now : Int)
    (p : PatternInsight) (hp : p.type = PatternType.time) :
    p ∈ generatePatternInsights weekEntries allEntries now ↔
      p ∈ timePatterns weekEntries := by
  rw [mem_generatePatternInsights]
  constructor
  · rintro (h | h | h | h)
    · rw [mem_energyPatterns_type h] at hp
      exact absurd hp (by decide)
    · exact h
    · rw [mem_trendPatterns_type h] at hp
      exact absurd hp (by decide)
    · rw [mem_fatiguePatterns_type h] at hp
      exact absurd hp (by decide)
  · intro h
    exact Or.inr (Or.inl h)

/-- C8: the weekly report carries a Morning Person pattern exactly when at
least 3 morning entries exist and strictly more than 70% of them are
morning-positive; a Night Owl pattern exactly when the morning condition
fails while at least 3 evening entries exist and strictly more than 70% of
them are evening-positive; never both, and the report's time-typed patterns
are exactly the (at most one) output of the time block. -/
theorem C8_time_of_day_pattern (weekEntries allEntries : List MoodEntry) (now : Int) :
    (morningPersonInsight ∈ generatePatternInsights weekEntries allEntries now ↔
      morningPersonCond weekEntries) ∧
    (nightOwlInsight ∈ generatePatternInsights weekEntries allEntries now ↔
      ¬morningPersonCond weekEntries ∧ nightOwlCond weekEntries) ∧
    ¬(morningPersonInsight ∈ generatePatternInsights weekEntries allEntries now ∧
      nightOwlInsight ∈ generatePatternInsights weekEntries allEntries now) ∧
    (generatePatternInsights weekEntries allEntries now).filter
        (fun p => p.type == PatternType.time) = timePatterns weekEntries ∧
    ((generatePatternInsights weekEntries allEntries now).filter
        (fun p => p.type == PatternType.time)).length ≤ 1 := by
  have hmorning :
      morningPersonInsight ∈ generatePatternInsights weekEntries allEntries now ↔
        morningPersonCond weekEntries := by
    rw [time_mem_iff weekEntries allEntries now morningPersonInsight rfl]
    unfold timePatterns
    split_ifs with h1 h2 <;>
      simp [morningPersonInsight, nightOwlInsight, *]
  have hnight :
      nightOwlInsight ∈ generatePatternInsights weekEntries allEntries now ↔
        ¬morningPersonCond weekEntries ∧ nightOwlCond weekEntries := by
    rw [time_mem_iff weekEntries allEntries now nightOwlInsight rfl]
    unfold timePatterns
    split_ifs with h1 h2 <;>
      simp [morningPersonInsight, nightOwlInsight, *]
  have hfilter :
      (generatePatternInsights weekEntries allEntries now).filter
        (fun p => p.type == PatternType.time) = timePatterns weekEntries := by
    rw [generatePatternInsights_eq]
    rw [List.filter_append, List.filter_append, List.filter_append]
    have he : (energyPatterns weekEntries).filter
        (fun p => p.type == PatternType.time) = [] := by
      apply List.filter_eq_nil_iff.mpr
      intro p hp
      rw [mem_energyPatterns_type hp]
      decide
    have htr : (trendPatterns weekEntries allEntries now).filter
        (fun p => p.type == PatternType.time) = [] := by
      apply List.filter_eq_nil_iff.mpr
      intro p hp
      rw [mem_trendPatterns_type hp]
      decide
    have hfa : (fatiguePatterns weekEntries).filter
        (fun p => p.type == PatternType.time) = [] := by
      apply List.filter_eq_nil_iff.mpr
      intro p hp
      rw [mem_fatiguePatterns_type hp]
      decide
    have hti : (timePatterns weekEntries).filter
        (fun p => p.type == PatternType.time) = timePatterns weekEntries := by
      apply List.filter_eq_self.mpr
      intro p hp
      rw [mem_timePatterns_type hp]
      rfl
    rw [he, htr, hfa, hti, List.nil_append, List.append_nil, List.append_nil]
  refine ⟨hmorning, hnight, ?_, hfilter, ?_⟩
  · rintro ⟨h1, h2⟩
    exact (hnight.mp h2).1 (hmorning.mp h1)
  · rw [hfilter]
    exact timePatterns_length weekEntries

/-- Does `pat` occur as a contiguous substring of the character list? -/
def hasSubstr (pat : List Char) : List Char → Bool
  | [] => pat.isEmpty
  | c :: rest => pat.isPrefixOf (c :: rest) || hasSubstr pat rest

/-- The `$`-substitution of ECMAScript `GetSubstitution`, for a string
pattern (so there are no capture groups): in the replacement text, `$$`
yields `$`, `$&` the matched text, `$` followed by a backquote the text
before the match, `$` followed by a quote the text after it; any other `$`
is literal (including `$n`, since there are no captures). -/
def subst (matched pre post : List Char) : List Char → List Char
  | [] => []
  | [c] => [c]
  | c :: d :: rest =>
    if c = '$' then
      if d = '$' then '$' :: subst matched pre post rest
      else if d = '&' then matched ++ subst matched pre post rest
      else if d = '\x60' then pre ++ subst matched pre post rest
      else if d = '\x27' then post ++ subst matched pre post rest
      else c :: subst matched pre post (d :: rest)
    else c :: subst matched pre post (d :: rest)

/-- JavaScript `String.replace` with a plain-string pattern replaces only
the first occurrence, scanning left to right, and applies `$`-substitution
to the replacement text; `pre` accumulates the (reversed) text already
scanned, so that the backquote and quote escapes see the right context.
All patterns used by the template engine are nonempty. -/
def replaceFirstAux (pat repl : List Char) : List Char → List Char → List Char
  | _, [] => []
  | pre, c :: rest =>
    if pat.isPrefixOf (c :: rest) then
      subst pat pre.reverse ((c :: rest).drop pat.length) repl
        ++ (c :: rest).drop pat.length
    else c :: replaceFirstAux pat repl (c :: pre) rest

/-- `String.replace(pattern, replacement)` of JavaScript (first occurrence
only, with `$`-substitution in the replacement), lifted to `String`. -/
def String.replaceFirst (s pat repl : String) : String :=
  ⟨replaceFirstAux pat.data repl.data [] s.data⟩

/-- `hasSubstr` on `String`. -/
def String.hasSub (s pat : String) : Bool :=
  hasSubstr pat.data s.data

/-- A per-segment rendering context (interface `StoryContext` of the story
engine). -/
structure StoryContext where
  mood : Mood
  timeOfDay : TimeOfDay
  activities : Option (List ActivityId) := none
  energyLevel : Option Nat := none
  note : Option String := none
deriving DecidableEq, Repr

/-- The input of `generateDayStory` (interface `DayStoryInput`). -/
structure DayStoryInput where
  morning : Option StoryContext := none
  afternoon : Option StoryContext := none
  evening : Option StoryContext := none
deriving DecidableEq, Repr

/-- The output of `generateDayStory` (the story engine's local `DayStory`
interface: three prose strings plus a summary). -/
structure DayStoryOut where
  morning : String
  afternoon : String
  evening : String
  summary : String
deriving DecidableEq, Repr

/-- The fixed phrase table `activityPhrases`. -/
structure ActivityPhrases where
  doing : String
  past : String
  effect : String
deriving DecidableEq, Repr

/-- `activityPhrases`, keyed by activity id. -/
def activityPhrases : ActivityId → ActivityPhrases
  | .work =>
    ⟨"navigating work demands", "after hours of focus",
     "productivity shaped the hours"⟩
  | .social =>
    ⟨"connecting with others", "after moments of connection",
     "human warmth filled the spaces"⟩
  | .exercise =>
    ⟨"moving your body", "after physical movement", "your body thanked you"⟩
  | .creative =>
    ⟨"creating something new", "after letting creativity flow",
     "imagination colored your thoughts"⟩
  | .rest =>
    ⟨"allowing yourself to slow down", "after giving yourself rest",
     "stillness became a gift"⟩
  | .nature =>
    ⟨"breathing in the outdoors", "after time with nature",
     "the world felt a little bigger"⟩
  | .learning =>
    ⟨"expanding your mind", "after absorbing something new",
     "curiosity led the way"⟩
  | .family =>
    ⟨"being with loved ones", "after moments with family",
     "love anchored the day"⟩

/-- An `energyDescriptions` record value. -/
structure EnergyDesc where
  state : String
  verb : String
deriving DecidableEq, Repr

/-- The `energyDescriptions` table, keyed by energy level 1–5 (`none` for
any other key, as in a JavaScript record lookup miss). -/
def energyDescriptions (n : Nat) : Option EnergyDesc :=
  if n = 1 then some ⟨"running on empty", "dragged through"⟩
  else if n = 2 then some ⟨"low on fuel", "pushed through"⟩
  else if n = 3 then some ⟨"steadily moving", "navigated"⟩
  else if n = 4 then some ⟨"feeling capable", "embraced"⟩
  else if n = 5 then some ⟨"fully charged", "powered through"⟩
  else none

/-- The fallback of `energyDescriptions[context.energyLevel] ||
energyDescriptions[3]`. -/
def energyDefault : EnergyDesc := ⟨"steadily moving", "navigated"⟩

/-- `charAt(0).toUpperCase() + slice(1)`. -/
def capitalize (s : String) : String :=
  match s.data with
  | [] => ""
  | c :: rest => ⟨c.toUpper :: rest⟩

/-- The 7×3 story template pools (`storyTemplates`); the record has no
`sad` key, so `sad` maps to the empty pool. -/
def storyTemplates (m : Mood) (t : TimeOfDay) : List String :=
  match m, t with
  | .happy, .morning =>
    ["The sun greeted you gently, and something felt lighter today.",
     "You woke with a quiet smile, \x7b\x7bACTIVITY_EFFECT\x7d\x7d.",
     "Morning light filtered through, carrying promises of good things.",
     "\x7b\x7bENERGY_STATE\x7d\x7d, you welcomed the day with open arms.",
     "Joy found you early, settling into your morning like an old friend."]
  | .happy, .afternoon =>
    ["The day unfolded with warmth, \x7b\x7bACTIVITY_DOING\x7d\x7d.",
     "Afternoon passed in a pleasant rhythm, contentment in the small things.",
     "Hours slipped by easily, touched by a sense of gratitude.",
     "You \x7b\x7bENERGY_VERB\x7d\x7d the afternoon, finding happiness in the flow.",
     "Lightness carried you through the midday hours."]
  | .happy, .evening =>
    ["The day ended softly, leaving behind traces of joy to remember.",
     "Night came with a peaceful heart, \x7b\x7bACTIVITY_PAST\x7d\x7d.",
     "You carried warmth into the evening, a gentle glow within.",
     "\x7b\x7bNOTE_REFLECTION\x7d\x7d",
     "The day closed on a high note, happiness lingering like a melody."]
  | .calm, .morning =>
    ["The morning arrived in stillness, a quiet beginning.",
     "You rose with a steady breath, \x7b\x7bACTIVITY_EFFECT\x7d\x7d.",
     "Dawn brought a sense of peace, like the world had paused for you.",
     "\x7b\x7bENERGY_STATE\x7d\x7d, you found tranquility in the ordinary.",
     "Serenity wrapped around the morning like a soft blanket."]
  | .calm, .afternoon =>
    ["The afternoon moved like a slow river, calm and clear.",
     "Time stretched gently, \x7b\x7bACTIVITY_DOING\x7d\x7d.",
     "You found tranquility in the ordinary moments.",
     "Peace was your companion as you \x7b\x7bENERGY_VERB\x7d\x7d the hours.",
     "The afternoon hummed with quiet contentment."]
  | .calm, .evening =>
    ["The day gently slowed down, leaving space to breathe.",
     "Evening settled in like a familiar embrace, \x7b\x7bACTIVITY_PAST\x7d\x7d.",
     "Night arrived softly, wrapping everything in quiet calm.",
     "\x7b\x7bNOTE_REFLECTION\x7d\x7d",
     "You drifted into evening with a serene heart."]
  | .tired, .morning =>
    ["Morning felt heavier than usual, your energy still gathering.",
     "You began the day carrying weight, \x7b\x7bENERGY_STATE\x7d\x7d.",
     "The morning asked for patience as you slowly found your footing.",
     "Dawn arrived, but energy lagged behind, \x7b\x7bACTIVITY_EFFECT\x7d\x7d.",
     "You rose despite the weight, honoring your commitment to show up."]
  | .tired, .afternoon =>
    ["The afternoon challenged you, but you kept moving forward.",
     "Energy ebbed and flowed as you \x7b\x7bENERGY_VERB\x7d\x7d the hours.",
     "You pushed through the fog, \x7b\x7bACTIVITY_DOING\x7d\x7d.",
     "Weariness sat with you, but you didn\x27t let it stop you.",
     "The afternoon demanded more than you had, yet you persisted."]
  | .tired, .evening =>
    ["Rest finally called, and you answered with relief.",
     "The evening welcomed you with the promise of restoration.",
     "Night arrived as a sanctuary, \x7b\x7bACTIVITY_PAST\x7d\x7d.",
     "\x7b\x7bNOTE_REFLECTION\x7d\x7d",
     "You earned this rest. Tomorrow is a new beginning."]
  | .anxious, .morning =>
    ["The morning carried an edge, thoughts racing before your feet hit the ground.",
     "You woke with a flutter in your chest, \x7b\x7bENERGY_STATE\x7d\x7d.",
     "Dawn arrived with restless energy, but you faced it anyway.",
     "Uncertainty colored the morning, yet you showed up, \x7b\x7bACTIVITY_DOING\x7d\x7d.",
     "The mind raced ahead while the body tried to catch up."]
  | .anxious, .afternoon =>
    ["The afternoon tested your calm, but you held on.",
     "Waves of worry came and went, yet you stayed afloat.",
     "You breathed through the tension, \x7b\x7bACTIVITY_DOING\x7d\x7d.",
     "Anxiety whispered, but you chose to keep moving, \x7b\x7bENERGY_VERB\x7d\x7d.",
     "The hours felt longer, but you navigated each one."]
  | .anxious, .evening =>
    ["As night approached, the anxiety began to loosen its grip.",
     "The evening offered relief, \x7b\x7bACTIVITY_PAST\x7d\x7d.",
     "You made it through, and that itself was enough.",
     "\x7b\x7bNOTE_REFLECTION\x7d\x7d",
     "Night came as a gentle reminder: you survived another day."]
  | .focused, .morning =>
    ["You woke with clarity, ready to channel your energy.",
     "The morning brought purpose, \x7b\x7bACTIVITY_EFFECT\x7d\x7d.",
     "Dawn arrived with intention, each task waiting to be claimed.",
     "\x7b\x7bENERGY_STATE\x7d\x7d, your mind was sharp and ready.",
     "Focus found you early, guiding your first hours."]
  | .focused, .afternoon =>
    ["The afternoon became your canvas, \x7b\x7bACTIVITY_DOING\x7d\x7d.",
     "You moved with direction, accomplishing what mattered.",
     "Time passed productively, your attention unwavering.",
     "You \x7b\x7bENERGY_VERB\x7d\x7d the afternoon with precision and purpose.",
     "Goals fell like dominoes under your focused effort."]
  | .focused, .evening =>
    ["The evening arrived with satisfaction of a day well spent.",
     "You closed the day having created something meaningful.",
     "Night came to reward your dedication, \x7b\x7bACTIVITY_PAST\x7d\x7d.",
     "\x7b\x7bNOTE_REFLECTION\x7d\x7d",
     "Rest now. You\x27ve earned every moment of it."]
  | .neutral, .morning =>
    ["The morning began without fanfare, steady and unremarkable.",
     "You rose into an ordinary day, \x7b\x7bACTIVITY_EFFECT\x7d\x7d.",
     "Dawn arrived quietly, bringing an average kind of peace.",
     "\x7b\x7bENERGY_STATE\x7d\x7d, the day started on an even keel.",
     "Neither heavy nor light, the morning simply was."]
  | .neutral, .afternoon =>
    ["The afternoon passed in familiar rhythms.",
     "Hours moved along their usual path, \x7b\x7bACTIVITY_DOING\x7d\x7d.",
     "You navigated the day on autopilot, and that was okay.",
     "The middle of the day held no surprises, just steady progress.",
     "You \x7b\x7bENERGY_VERB\x7d\x7d the afternoon with quiet consistency."]
  | .neutral, .evening =>
    ["The day ended as it began \u00E2\u20AC\u201C quietly, simply.",
     "Evening brought closure to an unremarkable but honest day.",
     "Night arrived to bookmark another page in your story.",
     "\x7b\x7bNOTE_REFLECTION\x7d\x7d",
     "Not every day needs to be extraordinary to matter."]
  | .excited, .morning =>
    ["Energy sparked the moment you opened your eyes.",
     "The morning hummed with anticipation, \x7b\x7bACTIVITY_EFFECT\x7d\x7d.",
     "You woke ready to chase whatever the day would offer.",
     "\x7b\x7bENERGY_STATE\x7d\x7d, excitement bubbled up naturally.",
     "The air felt electric with possibility."]
  | .excited, .afternoon =>
    ["The afternoon crackled with momentum, \x7b\x7bACTIVITY_DOING\x7d\x7d.",
     "Hours raced by, filled with energy and engagement.",
     "You rode the wave of excitement, alive in each moment.",
     "You \x7b\x7bENERGY_VERB\x7d\x7d the afternoon with infectious enthusiasm.",
     "Every moment felt charged with potential."]
  | .excited, .evening =>
    ["The evening buzzed with the afterglow of a vibrant day.",
     "Night arrived but couldn\x27t dim your inner spark.",
     "You carried the day\x27s excitement into your dreams, \x7b\x7bACTIVITY_PAST\x7d\x7d.",
     "\x7b\x7bNOTE_REFLECTION\x7d\x7d",
     "What a day to remember. The energy lives on."]
  | .sad, _ => []

/-- The 7×4 summary template pools (`summaryTemplates`); no `sad` key. -/
def summaryTemplates (m : Mood) : List String :=
  match m with
  | .happy =>
    ["Today held moments of quiet joy.",
     "You found lightness in the ordinary.",
     "A day touched by happiness, \x7b\x7bACTIVITY_SUMMARY\x7d\x7d.",
     "Joy was your companion today."]
  | .calm =>
    ["Today was a gentle exhale.",
     "Peace found you in the stillness.",
     "A day of quiet presence, \x7b\x7bACTIVITY_SUMMARY\x7d\x7d.",
     "Serenity colored your hours."]
  | .tired =>
    ["You carried yourself through today.",
     "Rest was the day\x27s true destination.",
     "A day of pushing through, \x7b\x7bACTIVITY_SUMMARY\x7d\x7d.",
     "Tomorrow, you rise again."]
  | .anxious =>
    ["You navigated stormy waters today.",
     "Despite the waves, you stayed afloat.",
     "A day of quiet courage, \x7b\x7bACTIVITY_SUMMARY\x7d\x7d.",
     "You showed up. That\x27s enough."]
  | .focused =>
    ["Today was shaped by intention.",
     "You moved with purpose, \x7b\x7bACTIVITY_SUMMARY\x7d\x7d.",
     "A day of meaningful progress.",
     "Focus was your superpower today."]
  | .neutral =>
    ["Today was simply today.",
     "An ordinary day, honestly lived.",
     "A quiet chapter in your story, \x7b\x7bACTIVITY_SUMMARY\x7d\x7d.",
     "Steady and balanced, just as it should be."]
  | .excited =>
    ["Today buzzed with energy.",
     "You embraced the day\x27s possibilities, \x7b\x7bACTIVITY_SUMMARY\x7d\x7d.",
     "A day alive with spark and wonder.",
     "The excitement will echo in your dreams."]
  | .sad => []

/-- The no-activities branch of the activity pass: the `", {{...}}"`
trailing-clause forms are collapsed first, the remaining bare placeholders
get generic fallbacks, and a trailing `", {{ACTIVITY_SUMMARY}}"` clause is
collapsed. -/
def activityFallback (t : String) : String :=
  ((((((t.replaceFirst ", \x7b\x7bACTIVITY_DOING\x7d\x7d" "").replaceFirst
      ", \x7b\x7bACTIVITY_PAST\x7d\x7d" "").replaceFirst
      ", \x7b\x7bACTIVITY_EFFECT\x7d\x7d" "").replaceFirst
      "\x7b\x7bACTIVITY_DOING\x7d\x7d" "moving through the hours").replaceFirst
      "\x7b\x7bACTIVITY_PAST\x7d\x7d" "after the day unfolded").replaceFirst
      "\x7b\x7bACTIVITY_EFFECT\x7d\x7d" "the day took shape").replaceFirst
      ", \x7b\x7bACTIVITY_SUMMARY\x7d\x7d" ""

/-- The activity-placeholder pass of `fillTemplate`: with a nonempty
activity list the first activity's phrases are substituted; otherwise the
fallback collapse runs. -/
def activityStep (t : String) : Option (List ActivityId) → String
  | some (a :: _) =>
    let phrases := activityPhrases a
    (((t.replaceFirst "\x7b\x7bACTIVITY_DOING\x7d\x7d" phrases.doing).replaceFirst
        "\x7b\x7bACTIVITY_PAST\x7d\x7d" phrases.past).replaceFirst
        "\x7b\x7bACTIVITY_EFFECT\x7d\x7d" phrases.effect).replaceFirst
        "\x7b\x7bACTIVITY_SUMMARY\x7d\x7d" ("filled with " ++ phrases.doing)
  | some [] => activityFallback t
  | none => activityFallback t

/-- The fallback branch of the energy pass (absent or falsy level): collapse
the leading-clause form first, then substitute generic phrases. -/
def energyFallback (t : String) : String :=
  ((t.replaceFirst "\x7b\x7bENERGY_STATE\x7d\x7d, " "").replaceFirst
    "\x7b\x7bENERGY_STATE\x7d\x7d" "Moving forward").replaceFirst
    "\x7b\x7bENERGY_VERB\x7d\x7d" "moved through"

/-- The energy-placeholder pass of `fillTemplate`. A level of 0 is falsy in
JavaScript and is treated like an absent level; any other level is looked
up in the table with level 3's description as fallback. -/
def energyStep (t : String) (energyLevel : Option Nat) : String :=
  match energyLevel with
  | some n =>
    if n = 0 then energyFallback t
    else
      let energy := (energyDescriptions n).getD energyDefault
      (t.replaceFirst "\x7b\x7bENERGY_STATE\x7d\x7d"
        (capitalize energy.state)).replaceFirst
        "\x7b\x7bENERGY_VERB\x7d\x7d" energy.verb
  | none => energyFallback t

/-- JavaScript `String.prototype.trim`: drop whitespace from both ends, as
an operation on character lists. -/
def trimChars (s : List Char) : List Char :=
  ((s.dropWhile Char.isWhitespace).reverse.dropWhile Char.isWhitespace).reverse

/-- `trimChars` lifted to `String`. -/
def jsTrim (s : String) : String :=
  ⟨trimChars s.data⟩

/-- The note-reflection pass of `fillTemplate`: a present, non-blank note is
quoted literally (`context.note && context.note.trim()`; the empty trimmed
string is falsy); otherwise a generic closing sentence is substituted. -/
def noteStep (t : String) (note : Option String) : String :=
  match note with
  | some n =>
    if jsTrim n ≠ "" then
      t.replaceFirst "\x7b\x7bNOTE_REFLECTION\x7d\x7d"
        ("In your words: \"" ++ jsTrim n ++ "\"")
    else
      t.replaceFirst "\x7b\x7bNOTE_REFLECTION\x7d\x7d" "A moment worth remembering."
  | none =>
    t.replaceFirst "\x7b\x7bNOTE_REFLECTION\x7d\x7d" "A moment worth remembering."

/-- `fillTemplate`: the three substitution passes in source order
(activities, then energy, then note). -/
def fillTemplate (template : String) (ctx : StoryContext) : String :=
  noteStep (energyStep (activityStep template ctx.activities) ctx.energyLevel) ctx.note

/-- `pickRandom(arr)` models `arr[Math.floor(Math.random() * arr.length)]`:
the ambient randomness is an explicit choice function `ρ` giving the picked
index, reduced modulo the pool size (`""` for an empty pool). -/
def pickRandom (ρ : List String → Nat) (arr : List String) : String :=
  arr.getD (ρ arr % arr.length) ""

/-- `generateTimeStory`: pick a template from the (mood, timeOfDay) pool and
fill it from the context. -/
def generateTimeStory (ρ : List String → Nat) (ctx : StoryContext) : String :=
  fillTemplate (pickRandom ρ (storyTemplates ctx.mood ctx.timeOfDay)) ctx

/-- The source's `defaultContext` (mood neutral, morning). -/
def defaultContext : StoryContext :=
  { mood := .neutral, timeOfDay := .morning }

/-- The morning context of `generateDayStory`:
`input.morning || { ...defaultContext, timeOfDay: 'morning' }`. -/
def morningContext (input : DayStoryInput) : StoryContext :=
  input.morning.getD { defaultContext with timeOfDay := .morning }

/-- The afternoon context of `generateDayStory`: a missing afternoon
carries the morning mood forward (`input.morning?.mood || 'neutral'`;
every mood string is truthy). -/
def afternoonContext (input : DayStoryInput) : StoryContext :=
  input.afternoon.getD
    { defaultContext with
        mood := (input.morning.map (fun c => c.mood)).getD .neutral
        timeOfDay := .afternoon }

/-- The evening context of `generateDayStory`: a missing evening carries
forward the afternoon mood, else the morning mood, else neutral
(`input.afternoon?.mood || input.morning?.mood || 'neutral'`). -/
def eveningContext (input : DayStoryInput) : StoryContext :=
  input.evening.getD
    { defaultContext with
        mood := ((input.afternoon.map (fun c => c.mood)).orElse
          (fun _ => input.morning.map (fun c => c.mood))).getD .neutral
        timeOfDay := .evening }

/-- The union of the three segments' activity lists, in segment order. -/
def allActivities (input : DayStoryInput) : List ActivityId :=
  ((morningContext input).activities.getD []) ++
    ((afternoonContext input).activities.getD []) ++
    ((eveningContext input).activities.getD [])

/-- `generateDayStory`: render the three (possibly synthesized) segment
contexts, then render the summary from the evening mood and the union of
activities (`allActivities.length > 0 ? allActivities : undefined`). -/
def generateDayStory (ρ : List String → Nat) (input : DayStoryInput) : DayStoryOut :=
  let morningStory := generateTimeStory ρ { morningContext input with timeOfDay := .morning }
  let afternoonStory := generateTimeStory ρ { afternoonContext input with timeOfDay := .afternoon }
  let eveningStory := generateTimeStory ρ { eveningContext input with timeOfDay := .evening }
  let summaryMood := (eveningContext input).mood
  let summary := fillTemplate (pickRandom ρ (summaryTemplates summaryMood))
    { mood := summaryMood
      timeOfDay := .evening
      activities := if (allActivities input).length > 0 then some (allActivities input) else none }
  { morning := morningStory
    afternoon := afternoonStory
    evening := eveningStory
    summary := summary }

/-- C5: `generateDayStory` synthesizes a missing segment by carrying the
nearest previously-defined segment's mood forward — a missing morning is
neutral, a missing afternoon takes the morning mood, a missing evening
takes the afternoon mood, else the morning mood, else neutral — and the
summary is rendered from the evening segment's (possibly carried-forward)
mood and the three segments' combined activities; in the scenario
morning = happy, afternoon = focused, evening = calm, the summary's
underlying mood is calm. -/
theorem C5_generateDayStory_carry (input : DayStoryInput) (ρ : List String → Nat) :
    (input.morning = none → (morningContext input).mood = .neutral) ∧
    (input.afternoon = none →
      (afternoonContext input).mood
        = (input.morning.map (fun c => c.mood)).getD .neutral) ∧
    (input.evening = none → ∀ ca, input.afternoon = some ca →
      (eveningContext input).mood = ca.mood) ∧
    (input.evening = none → input.afternoon = none →
      (eveningContext input).mood
        = (input.morning.map (fun c => c.mood)).getD .neutral) ∧
    (generateDayStory ρ input).summary =
      fillTemplate (pickRandom ρ (summaryTemplates (eveningContext input).mood))
        { mood := (eveningContext input).mood
          timeOfDay := .evening
          activities :=
            if (allActivities input).length > 0 then some (allActivities input)
            else none } ∧
    (eveningContext
      { morning := some { mood := .happy, timeOfDay := .morning }
        afternoon := some { mood := .focused, timeOfDay := .afternoon }
        evening := some { mood := .calm, timeOfDay := .evening } }).mood = .calm := by
  refine ⟨?_, ?_, ?_, ?_, rfl, by decide⟩
  · intro h
    simp [morningContext, defaultContext, h]
  · intro h
    simp [afternoonContext, defaultContext, h]
  · intro h ca hca
    simp [eveningContext, defaultContext, h, hca, Option.orElse]
  · intro h1 h2
    simp [eveningContext, defaultContext, h1, h2, Option.orElse]

/-- Concrete instantiation of the C5 theorem: an input with only a happy
morning yields a happy carried-forward afternoon mood and a happy
carried-forward evening mood. -/
theorem C5_witness :
    (afternoonContext
      { morning := some { mood := Mood.happy, timeOfDay := .morning } }).mood
      = Mood.happy ∧
    (eveningContext
      { morning := some { mood := Mood.happy, timeOfDay := .morning } }).mood
      = Mood.happy :=
  ⟨((C5_generateDayStory_carry
      { morning := some { mood := Mood.happy, timeOfDay := .morning } }
      (fun _ => 0)).2.1 rfl).trans (by decide),
   ((C5_generateDayStory_carry
      { morning := some { mood := Mood.happy, timeOfDay := .morning } }
      (fun _ => 0)).2.2.2.1 rfl rfl).trans (by decide)⟩

/-- The placeholder-opening brace pair. -/
def BBs : String := "\x7b\x7b"

/-- The note-reflection placeholder. -/
def notePat : String := "\x7b\x7bNOTE_REFLECTION\x7d\x7d"

/-- If the pattern does not occur, first-occurrence replacement is the
identity, whatever was already scanned. -/
theorem replaceFirstAux_of_not_hasSubstr (pat repl : List Char) :
    ∀ s pre, hasSubstr pat s = false → replaceFirstAux pat repl pre s = s := by
  intro s
  induction s with
  | nil => intro _ _ ; rfl
  | cons c rest ih =>
    intro pre h
    rw [hasSubstr, Bool.or_eq_false_iff] at h
    rw [replaceFirstAux, if_neg (by simp [h.1]), ih _ h.2]

/-- Replacing a nonempty pattern inside itself yields the substituted
replacement (the match covers the whole string, so the text after the
match is empty). -/
theorem replaceFirstAux_self (pat repl pre : List Char) (h : pat ≠ []) :
    replaceFirstAux pat repl pre pat = subst pat pre.reverse [] repl := by
  cases pat with
  | nil => exact absurd rfl h
  | cons c rest =>
    rw [replaceFirstAux, if_pos]
    · rw [List.drop_length, List.append_nil]
    · exact List.isPrefixOf_iff_prefix.mpr (List.prefix_refl _)

/-- `hasSubstr` decides the contiguous-substring (infix) relation. -/
theorem hasSubstr_infix_iff (pat : List Char) :
    ∀ s, hasSubstr pat s = true ↔ pat <:+: s := by
  intro s
  induction s with
  | nil => simp [hasSubstr, List.isEmpty_iff]
  | cons c rest ih =>
    rw [hasSubstr, Bool.or_eq_true, List.infix_cons_iff, ih,
      List.isPrefixOf_iff_prefix]

/-- `hasSubstr` is antitone along the infix order. -/
theorem hasSubstr_false_of_infix {pat s t : List Char}
    (hs : hasSubstr pat s = false) (hts : t <:+: s) :
    hasSubstr pat t = false := by
  by_contra hcon
  rw [Bool.not_eq_false, hasSubstr_infix_iff] at hcon
  rw [← Bool.not_eq_true, hasSubstr_infix_iff] at hs
  exact hs (hcon.trans hts)

/-- The trimmed character list is an infix of the original. -/
theorem trimChars_infix_self (s : List Char) : trimChars s <:+: s := by
  unfold trimChars
  have h1 : s.dropWhile Char.isWhitespace <:+ s := List.dropWhile_suffix _
  have h2 : (s.dropWhile Char.isWhitespace).reverse.dropWhile Char.isWhitespace
      <:+ (s.dropWhile Char.isWhitespace).reverse := List.dropWhile_suffix _
  have h3 : ((s.dropWhile Char.isWhitespace).reverse.dropWhile
      Char.isWhitespace).reverse
      <+: (s.dropWhile Char.isWhitespace).reverse.reverse :=
    List.reverse_prefix.mpr h2
  rw [List.reverse_reverse] at h3
  exact h3.isInfix.trans h1.isInfix

/-- Absence of the brace pair is preserved by concatenation when the seam
does not form one. -/
theorem hasSubstr_BB_append_false :
    ∀ x y : List Char, hasSubstr BBs.data x = false → hasSubstr BBs.data y = false →
      (x.getLast? ≠ some '\x7b' ∨ y.head? ≠ some '\x7b') →
      hasSubstr BBs.data (x ++ y) = false := by
  intro x
  induction x with
  | nil =>
    intro y _ hy _
    simpa using hy
  | cons c x ih =>
    intro y hx hy hb
    rw [hasSubstr, Bool.or_eq_false_iff] at hx
    rw [List.cons_append, hasSubstr, Bool.or_eq_false_iff]
    refine ⟨?_, ?_⟩
    · cases x with
      | nil =>
        rw [List.nil_append]
        cases y with
        | nil => simp [BBs, List.isPrefixOf]
        | cons d y' =>
          rcases hb with hb | hb
          · have hc : ('\x7b' : Char) ≠ c := by
              intro hcon
              exact hb (by simp [hcon.symm])
            show (BBs.data.isPrefixOf (c :: d :: y')) = false
            simp [BBs, List.isPrefixOf, hc]
          · have hd : ('\x7b' : Char) ≠ d := by
              intro hcon
              exact hb (by simp [hcon.symm])
            show (BBs.data.isPrefixOf (c :: d :: y')) = false
            simp [BBs, List.isPrefixOf, hd]
      | cons d x' =>
        have hpre := hx.1
        revert hpre
        show (BBs.data.isPrefixOf (c :: d :: x')) = false →
          (BBs.data.isPrefixOf (c :: d :: (x' ++ y))) = false
        simp [BBs, List.isPrefixOf]
    · apply ih y hx.2 hy
      cases x with
      | nil => exact Or.inl (by simp)
      | cons d x' =>
        rcases hb with hb | hb
        · left
          simpa using hb
        · exact Or.inr hb

/-- Canonical form of an activity list for `fillTemplate`: only presence and
the first activity matter (`context.activities[0]`). -/
def canonAct : Option (List ActivityId) → Option (List ActivityId)
  | some (a :: _) => some [a]
  | _ => none

/-- Canonical form of an energy level for `fillTemplate`: 0 is falsy, levels
beyond the 1–5 table fall back to level 3's description. -/
def canonEn : Option Nat → Option Nat
  | some n => if n = 0 then none else if n ≤ 5 then some n else some 3
  | none => none

/-- The canonical activity cases. -/
def canonActs : List (Option (List ActivityId)) :=
  [none, some [.work], some [.social], some [.exercise], some [.creative],
   some [.rest], some [.nature], some [.learning], some [.family]]

/-- The canonical energy cases. -/
def canonEnergies : List (Option Nat) :=
  [none, some 1, some 2, some 3, some 4, some 5]

/-- The activity pass only depends on the canonical form. -/
theorem activityStep_canon (t : String) :
    ∀ acts, activityStep t acts = activityStep t (canonAct acts) := by
  rintro (_ | ⟨_ | ⟨a, rest⟩⟩) <;> rfl

/-- The energy pass only depends on the canonical form. -/
theorem energyStep_canon (t : String) :
    ∀ en, energyStep t en = energyStep t (canonEn en) := by
  intro en
  rcases en with _ | n
  · rfl
  · by_cases h0 : n = 0
    · subst h0
      rfl
    · by_cases h5 : n ≤ 5
      · rw [show canonEn (some n) = some n by simp [canonEn, h0, h5]]
      · rw [show canonEn (some n) = some 3 by simp [canonEn, h0, h5]]
        show energyStep t (some n) = energyStep t (some 3)
        simp only [energyStep]
        rw [if_neg h0, if_neg (by omega : ¬(3 : Nat) = 0)]
        have hd : energyDescriptions n = none := by
          unfold energyDescriptions
          split_ifs <;> first | rfl | (exfalso; omega)
        rw [hd]
        rfl

/-- `fillTemplate` factored through the canonical context. -/
theorem fillTemplate_canon (t : String) (ctx : StoryContext) :
    fillTemplate t ctx =
      noteStep (energyStep (activityStep t (canonAct ctx.activities))
        (canonEn ctx.energyLevel)) ctx.note := by
  unfold fillTemplate
  rw [activityStep_canon, energyStep_canon]

/-- The canonical activity form lands in the canonical case list. -/
theorem canonAct_mem : ∀ acts, canonAct acts ∈ canonActs := by
  rintro (_ | ⟨_ | ⟨a, rest⟩⟩)
  · decide
  · decide
  · show some [a] ∈ canonActs
    cases a <;> decide

/-- The canonical energy form lands in the canonical case list. -/
theorem canonEn_mem : ∀ en, canonEn en ∈ canonEnergies := by
  intro en
  rcases en with _ | n
  · decide
  · by_cases h0 : n = 0
    · subst h0
      decide
    · by_cases h5 : n ≤ 5
      · rw [show canonEn (some n) = some n by simp [canonEn, h0, h5]]
        have h1 : 1 ≤ n := by omega
        interval_cases n <;> decide
      · rw [show canonEn (some n) = some 3 by simp [canonEn, h0, h5]]
        decide

/-- The property of the string entering the note pass that guarantees a
placeholder-free result: either it is already brace-free with no note
placeholder, or it is exactly the note placeholder (the template pools only
use `{{NOTE_REFLECTION}}` as a whole template). -/
def preNoteOk (s : String) : Bool :=
  (!(s.hasSub BBs) && !(s.hasSub notePat)) || (s == notePat)

/-- First-occurrence replacement is the identity when the pattern is
absent, on `String`. -/
theorem replaceFirst_noop {s pat : String} (h : s.hasSub pat = false)
    (repl : String) : s.replaceFirst pat repl = s := by
  unfold String.replaceFirst
  rw [replaceFirstAux_of_not_hasSubstr _ _ _ _ h]

/-- A string free of a pattern is free of every extension of it. -/
theorem hasSub_false_mono {s p q : String} (h : s.hasSub q = false)
    (hpq : q.data <:+: p.data) : s.hasSub p = false := by
  by_contra hcon
  rw [Bool.not_eq_false] at hcon
  unfold String.hasSub at h hcon
  rw [hasSubstr_infix_iff] at hcon
  rw [← Bool.not_eq_true, hasSubstr_infix_iff] at h
  exact h (hpq.trans hcon)

/-- A template with none of the four activity placeholders passes the
activity step unchanged, for every activity list. -/
theorem act_noop (t : String)
    (h1 : t.hasSub "\x7b\x7bACTIVITY_DOING\x7d\x7d" = false)
    (h2 : t.hasSub "\x7b\x7bACTIVITY_PAST\x7d\x7d" = false)
    (h3 : t.hasSub "\x7b\x7bACTIVITY_EFFECT\x7d\x7d" = false)
    (h4 : t.hasSub "\x7b\x7bACTIVITY_SUMMARY\x7d\x7d" = false) :
    ∀ acts, activityStep t acts = t := by
  have h1c : t.hasSub ", \x7b\x7bACTIVITY_DOING\x7d\x7d" = false :=
    hasSub_false_mono h1 (by decide)
  have h2c : t.hasSub ", \x7b\x7bACTIVITY_PAST\x7d\x7d" = false :=
    hasSub_false_mono h2 (by decide)
  have h3c : t.hasSub ", \x7b\x7bACTIVITY_EFFECT\x7d\x7d" = false :=
    hasSub_false_mono h3 (by decide)
  have h4c : t.hasSub ", \x7b\x7bACTIVITY_SUMMARY\x7d\x7d" = false :=
    hasSub_false_mono h4 (by decide)
  have hfb : activityFallback t = t := by
    unfold activityFallback
    rw [replaceFirst_noop h1c, replaceFirst_noop h2c, replaceFirst_noop h3c,
      replaceFirst_noop h1, replaceFirst_noop h2, replaceFirst_noop h3,
      replaceFirst_noop h4c]
  rintro (_ | ⟨_ | ⟨a, rest⟩⟩)
  · exact hfb
  · exact hfb
  · show (((t.replaceFirst _ _).replaceFirst _ _).replaceFirst _ _).replaceFirst _ _ = t
    rw [replaceFirst_noop h1, replaceFirst_noop h2, replaceFirst_noop h3,
      replaceFirst_noop h4]

/-- A string with neither energy placeholder passes the energy step
unchanged, for every energy level. -/
theorem en_noop (s : String)
    (h1 : s.hasSub "\x7b\x7bENERGY_STATE\x7d\x7d" = false)
    (h2 : s.hasSub "\x7b\x7bENERGY_VERB\x7d\x7d" = false) :
    ∀ e, energyStep s e = s := by
  have h1c : s.hasSub "\x7b\x7bENERGY_STATE\x7d\x7d, " = false :=
    hasSub_false_mono h1 (by decide)
  have hfb : energyFallback s = s := by
    unfold energyFallback
    rw [replaceFirst_noop h1c, replaceFirst_noop h1, replaceFirst_noop h2]
  rintro (_ | n)
  · exact hfb
  · show energyStep s (some n) = s
    simp only [energyStep]
    split_ifs
    · exact hfb
    · rw [replaceFirst_noop h1, replaceFirst_noop h2]

/-- The energy leg of the per-template check: skip the energy sweep when no
energy placeholder occurs. -/
def energyCheck (s : String) : Bool :=
  if (s.hasSub "\x7b\x7bENERGY_STATE\x7d\x7d"
      || s.hasSub "\x7b\x7bENERGY_VERB\x7d\x7d") = false then
    preNoteOk s
  else
    canonEnergies.all (fun e => preNoteOk (energyStep s e))

/-- The per-template check: skip the activity sweep when no activity
placeholder occurs. -/
def templateOk (t : String) : Bool :=
  if (t.hasSub "\x7b\x7bACTIVITY_DOING\x7d\x7d"
      || t.hasSub "\x7b\x7bACTIVITY_PAST\x7d\x7d"
      || t.hasSub "\x7b\x7bACTIVITY_EFFECT\x7d\x7d"
      || t.hasSub "\x7b\x7bACTIVITY_SUMMARY\x7d\x7d") = false then
    energyCheck t
  else
    canonActs.all (fun a => energyCheck (activityStep t a))

/-- `energyCheck` guarantees `preNoteOk` after the energy step, for every
canonical energy level. -/
theorem energyCheck_spec {s : String} (h : energyCheck s = true) :
    ∀ e ∈ canonEnergies, preNoteOk (energyStep s e) = true := by
  unfold energyCheck at h
  split_ifs at h with hc
  · intro e _
    rw [Bool.or_eq_false_iff] at hc
    rw [en_noop s hc.1 hc.2 e]
    exact h
  · intro e he
    exact List.all_eq_true.mp h e he

/-- `templateOk` guarantees `preNoteOk` after the activity and energy
steps, for every canonical context. -/
theorem preNoteOk_of_templateOk {t : String} (h : templateOk t = true)
    {a : Option (List ActivityId)} {e : Option Nat}
    (ha : a ∈ canonActs) (he : e ∈ canonEnergies) :
    preNoteOk (energyStep (activityStep t a) e) = true := by
  unfold templateOk at h
  split_ifs at h with hc
  · rw [Bool.or_eq_false_iff, Bool.or_eq_false_iff, Bool.or_eq_false_iff] at hc
    rw [act_noop t hc.1.1.1 hc.1.1.2 hc.1.2 hc.2 a]
    exact energyCheck_spec h e he
  · exact energyCheck_spec (List.all_eq_true.mp h a ha) e he

set_option maxHeartbeats 12000000 in
/-- Sweep: every happy-pool story template passes the per-template check. -/
theorem storyOk_happy :
    ∀ t, (storyTemplates Mood.happy t).all templateOk = true := by
  intro t
  cases t <;> decide

set_option maxHeartbeats 12000000 in
/-- Sweep: every calm-pool story template passes the per-template check. -/
theorem storyOk_calm :
    ∀ t, (storyTemplates Mood.calm t).all templateOk = true := by
  intro t
  cases t <;> decide

set_option maxHeartbeats 12000000 in
/-- Sweep: every tired-pool story template passes the per-template check. -/
theorem storyOk_tired :
    ∀ t, (storyTemplates Mood.tired t).all templateOk = true := by
  intro t
  cases t <;> decide

set_option maxHeartbeats 12000000 in
/-- Sweep: every anxious-pool story template passes the per-template check. -/
theorem storyOk_anxious :
    ∀ t, (storyTemplates Mood.anxious t).all templateOk = true := by
  intro t
  cases t <;> decide

set_option maxHeartbeats 12000000 in
/-- Sweep: every focused-pool story template passes the per-template check. -/
theorem storyOk_focused :
    ∀ t, (storyTemplates Mood.focused t).all templateOk = true := by
  intro t
  cases t <;> decide

set_option maxHeartbeats 12000000 in
/-- Sweep: every neutral-pool story template passes the per-template check. -/
theorem storyOk_neutral :
    ∀ t, (storyTemplates Mood.neutral t).all templateOk = true := by
  intro t
  cases t <;> decide

set_option maxHeartbeats 12000000 in
/-- Sweep: every excited-pool story template passes the per-template check. -/
theorem storyOk_excited :
    ∀ t, (storyTemplates Mood.excited t).all templateOk = true := by
  intro t
  cases t <;> decide

set_option maxHeartbeats 16000000 in
/-- Sweep: every summary template passes the per-template check. -/
theorem summaryOk :
    ∀ m, (summaryTemplates m).all templateOk = true := by
  intro m
  cases m <;> decide

/-- Every story-pool template passes the per-template check. -/
theorem storyTemplates_templateOk {m : Mood} {t : TimeOfDay} {tmpl : String}
    (hmem : tmpl ∈ storyTemplates m t) : templateOk tmpl = true := by
  cases m with
  | happy => exact List.all_eq_true.mp (storyOk_happy t) tmpl hmem
  | calm => exact List.all_eq_true.mp (storyOk_calm t) tmpl hmem
  | tired => exact List.all_eq_true.mp (storyOk_tired t) tmpl hmem
  | anxious => exact List.all_eq_true.mp (storyOk_anxious t) tmpl hmem
  | focused => exact List.all_eq_true.mp (storyOk_focused t) tmpl hmem
  | neutral => exact List.all_eq_true.mp (storyOk_neutral t) tmpl hmem
  | excited => exact List.all_eq_true.mp (storyOk_excited t) tmpl hmem
  | sad =>
    cases t <;> simp [storyTemplates] at hmem

/-- Every summary-pool template passes the per-template check. -/
theorem summaryTemplates_templateOk {m : Mood} {tmpl : String}
    (hmem : tmpl ∈ summaryTemplates m) : templateOk tmpl = true :=
  List.all_eq_true.mp (summaryOk m) tmpl hmem

/-- Replacing the note placeholder inside itself yields the
`$`-substituted replacement, with empty before- and after-match context. -/
theorem notePat_replaceFirst_self (r : String) :
    notePat.replaceFirst notePat r = ⟨subst notePat.data [] [] r.data⟩ := by
  unfold String.replaceFirst
  rw [replaceFirstAux_self _ _ _ (by decide)]
  rfl

/-- On `$`-free text, `$`-substitution is the identity. -/
theorem subst_of_no_dollar (matched pre post : List Char) :
    ∀ l, (∀ c ∈ l, c ≠ '$') → subst matched pre post l = l := by
  intro l
  induction l with
  | nil => intro _ ; rfl
  | cons c rest ih =>
    intro h
    have hc : c ≠ '$' := h c (by simp)
    cases rest with
    | nil => rfl
    | cons d rest2 =>
      rw [subst, if_neg hc, ih (fun x hx => h x (List.mem_cons_of_mem c hx))]

/-- Unfolding the note pass at a present note. -/
theorem noteStep_some (t n : String) :
    noteStep t (some n) =
      if jsTrim n ≠ "" then
        t.replaceFirst "\x7b\x7bNOTE_REFLECTION\x7d\x7d"
          ("In your words: \"" ++ jsTrim n ++ "\"")
      else
        t.replaceFirst "\x7b\x7bNOTE_REFLECTION\x7d\x7d"
          "A moment worth remembering." := rfl

/-- Unfolding the note pass at an absent note. -/
theorem noteStep_none (t : String) :
    noteStep t none =
      t.replaceFirst "\x7b\x7bNOTE_REFLECTION\x7d\x7d"
        "A moment worth remembering." := rfl

/-- The note pass yields a brace-free string whenever its input satisfies
`preNoteOk` and the note itself (if any) is brace-free and `$`-free — the
`$`-restriction matters because `String.replace` applies `$`-substitution
to the note-bearing replacement text. -/
theorem noteStep_noBB (s : String) (note : Option String)
    (hpre : preNoteOk s = true)
    (hnote : ∀ n, note = some n →
      hasSubstr BBs.data n.data = false ∧ ∀ c ∈ n.data, c ≠ '$') :
    (noteStep s note).hasSub BBs = false := by
  rw [preNoteOk, Bool.or_eq_true, Bool.and_eq_true, Bool.not_eq_true',
    Bool.not_eq_true'] at hpre
  rcases hpre with ⟨hbb, hnp⟩ | heq
  · have hno : ∀ r, s.replaceFirst notePat r = s := fun r => replaceFirst_noop hnp r
    cases note with
    | none =>
      rw [noteStep_none,
        show s.replaceFirst "\x7b\x7bNOTE_REFLECTION\x7d\x7d"
          "A moment worth remembering." = s from hno _]
      exact hbb
    | some n =>
      rw [noteStep_some]
      split_ifs
      · rw [show s.replaceFirst "\x7b\x7bNOTE_REFLECTION\x7d\x7d"
            ("In your words: \"" ++ jsTrim n ++ "\"") = s from hno _]
        exact hbb
      · rw [show s.replaceFirst "\x7b\x7bNOTE_REFLECTION\x7d\x7d"
            "A moment worth remembering." = s from hno _]
        exact hbb
  · have hs : s = notePat := eq_of_beq heq
    subst hs
    cases note with
    | none =>
      rw [noteStep_none]
      show ((notePat.replaceFirst notePat "A moment worth remembering.").hasSub BBs)
        = false
      rw [notePat_replaceFirst_self]
      decide
    | some n =>
      rw [noteStep_some]
      split_ifs
      · show ((notePat.replaceFirst notePat
          ("In your words: \"" ++ jsTrim n ++ "\"")).hasSub BBs) = false
        rw [notePat_replaceFirst_self]
        obtain ⟨hnb, hnd⟩ := hnote n rfl
        have hT : hasSubstr BBs.data (jsTrim n).data = false :=
          hasSubstr_false_of_infix hnb (trimChars_infix_self _)
        have hdollar :
            ∀ c ∈ ("In your words: \"" ++ jsTrim n ++ "\"").data, c ≠ '$' := by
          intro c hc
          rw [String.data_append, String.data_append] at hc
          rcases List.mem_append.mp hc with hc2 | hc2
          · rcases List.mem_append.mp hc2 with hc3 | hc3
            · exact (by decide : ∀ c ∈ "In your words: \"".data, c ≠ '$') c hc3
            · exact hnd c ((trimChars_infix_self n.data).subset hc3)
          · exact (by decide : ∀ c ∈ "\"".data, c ≠ '$') c hc2
        unfold String.hasSub
        rw [show (String.mk (subst notePat.data [] []
            ("In your words: \"" ++ jsTrim n ++ "\"").data)).data
          = subst notePat.data [] []
              ("In your words: \"" ++ jsTrim n ++ "\"").data from rfl]
        rw [subst_of_no_dollar _ _ _ _ hdollar]
        rw [show ("In your words: \"" ++ jsTrim n ++ "\"").data
            = ("In your words: \"".data ++ (jsTrim n).data) ++ "\"".data by
          simp [String.data_append]]
        apply hasSubstr_BB_append_false
        · apply hasSubstr_BB_append_false
          · decide
          · exact hT
          · left
            decide
        · decide
        · right
          decide
      · show ((notePat.replaceFirst notePat "A moment worth remembering.").hasSub BBs)
          = false
        rw [notePat_replaceFirst_self]
        decide

/-- C6 (amended): for every mood, segment and pool template (story or
summary) and every context whose note text is itself free of the `{{`
placeholder opener and of the `$` character (which `String.replace` would
`$`-substitute inside the note-bearing replacement), `fillTemplate` leaves
no `{{` in the output — every placeholder is substituted or collapsed —
and a template embedding a placeholder as a trailing clause loses the
leading `", "` together with the placeholder rather than keeping a stray
comma. -/
theorem C6_placeholders_resolved :
    (∀ (m : Mood) (t : TimeOfDay) (tmpl : String), tmpl ∈ storyTemplates m t →
      ∀ ctx : StoryContext,
        (∀ n, ctx.note = some n →
          hasSubstr BBs.data n.data = false ∧ ∀ c ∈ n.data, c ≠ '$') →
        (fillTemplate tmpl ctx).hasSub BBs = false) ∧
    (∀ (m : Mood) (tmpl : String), tmpl ∈ summaryTemplates m →
      ∀ ctx : StoryContext,
        (∀ n, ctx.note = some n →
          hasSubstr BBs.data n.data = false ∧ ∀ c ∈ n.data, c ≠ '$') →
        (fillTemplate tmpl ctx).hasSub BBs = false) ∧
    fillTemplate "The day unfolded with warmth, \x7b\x7bACTIVITY_DOING\x7d\x7d."
        { mood := .happy, timeOfDay := .afternoon }
      = "The day unfolded with warmth." := by
  refine ⟨?_, ?_, by decide⟩
  · intro m t tmpl hmem ctx hnote
    rw [fillTemplate_canon]
    exact noteStep_noBB _ _
      (preNoteOk_of_templateOk (storyTemplates_templateOk hmem)
        (canonAct_mem _) (canonEn_mem _)) hnote
  · intro m tmpl hmem ctx hnote
    rw [fillTemplate_canon]
    exact noteStep_noBB _ _
      (preNoteOk_of_templateOk (summaryTemplates_templateOk hmem)
        (canonAct_mem _) (canonEn_mem _)) hnote

/-- C6 counterexample to the claim as stated: the happy-evening pool
contains the bare `{{NOTE_REFLECTION}}` template, and the note text flows
into the replacement of `String.replace`, so (a) a note that is itself
`{{ACTIVITY_DOING}}` puts that literal placeholder text in the output, and
(b) a note of just `$&` — which contains no brace at all — is
`$`-substituted by the matched text and renders the output
`In your words: "{{NOTE_REFLECTION}}"`, so the unrestricted claim fails
even for brace-free notes. -/
theorem C6_note_can_reintroduce_placeholder :
    "\x7b\x7bNOTE_REFLECTION\x7d\x7d" ∈ storyTemplates Mood.happy TimeOfDay.evening ∧
    (fillTemplate "\x7b\x7bNOTE_REFLECTION\x7d\x7d"
        { mood := .happy, timeOfDay := .evening,
          note := some "\x7b\x7bACTIVITY_DOING\x7d\x7d" }).hasSub
      "\x7b\x7bACTIVITY_DOING\x7d\x7d" = true ∧
    (fillTemplate "\x7b\x7bNOTE_REFLECTION\x7d\x7d"
        { mood := .happy, timeOfDay := .evening,
          note := some "\x7b\x7bACTIVITY_DOING\x7d\x7d" }).hasSub BBs = true ∧
    hasSubstr BBs.data "$&".data = false ∧
    fillTemplate "\x7b\x7bNOTE_REFLECTION\x7d\x7d"
        { mood := .happy, timeOfDay := .evening, note := some "$&" }
      = "In your words: \"\x7b\x7bNOTE_REFLECTION\x7d\x7d\"" ∧
    (fillTemplate "\x7b\x7bNOTE_REFLECTION\x7d\x7d"
        { mood := .happy, timeOfDay := .evening,
          note := some "$&" }).hasSub BBs = true := by
  refine ⟨by decide, by decide, by decide, by decide, by decide, by decide⟩

/-- Concrete instantiation of the C6 theorem: an energy-state template with
a brace-free, dollar-free note renders with no `{{` left. -/
theorem C6_witness :
    (fillTemplate "\x7b\x7bENERGY_STATE\x7d\x7d, you welcomed the day with open arms."
        { mood := Mood.happy, timeOfDay := TimeOfDay.morning,
          note := some "felt good" }).hasSub BBs = false :=
  C6_placeholders_resolved.1 Mood.happy TimeOfDay.morning
    "\x7b\x7bENERGY_STATE\x7d\x7d, you welcomed the day with open arms."
    (by decide)
    { mood := Mood.happy, timeOfDay := TimeOfDay.morning, note := some "felt good" }
    (by
      intro n h
      injection h with h2
      subst h2
      exact ⟨by decide, by decide⟩)
